import Mathlib

/-!
Shallow embedding of the bid.cars watcher (src/flask_app.py and src/toyota.py).

The two Python modules are near-identical change-detection cores.  Each run
fetches a snapshot of auction listings, diffs it against a durable seen-set
kept in an Upstash Redis store, and delivers a Telegram alert for every new
listing.  The embedding below translates the pure data manipulation of the
source directly; the effectful collaborators are made explicit:

* the fetched snapshot is a parameter (`listings : List Listing`);
* the Redis store is a value of type `Store`, mutations are explicit state
  passing, and each run also returns the list of store commands it issued
  (`List StoreOp`);
* the Telegram transport is an oracle `transport : Nat → TransportOutcome`
  giving the outcome of the k-th HTTP call of the run, and each run returns
  the listings for which `send_telegram_message` was invoked (`attempts`)
  and those for which an actual HTTP call was made (`transported`);
* a Python exception escaping `run_check` is an `err := some msg` output.
-/

/-- One vehicle auction record as returned by the source.  Every attribute the
code reads via `listing.get(...)` is optional: an absent key is `none`. -/
structure Listing where
  lot : Option String := none
  vin : Option String := none
  name : Option String := none
  name_long : Option String := none
  odometer_substr : Option String := none
  location : Option String := none
  prebid_price : Option String := none
  final_bid_formatted : Option String := none
  search_status : Option String := none
deriving DecidableEq

/-- Python truthiness of an optional string: `None` and `''` are falsy. -/
def truthy : Option String → Bool
  | none => false
  | some s => s != ""

/-- The lot value the code works with after a truthiness guard
(`lot = listing.get('lot')`). -/
def lotStr (l : Listing) : String := l.lot.getD ""

/-- Accumulator pass over the characters for `pySplit`: `acc` holds the
characters of the token currently being read, in reverse. -/
def pySplitAux : List Char → List Char → List String
  | [], acc => if acc = [] then [] else [String.mk acc.reverse]
  | c :: cs, acc =>
    if c.isWhitespace then
      (if acc = [] then [] else [String.mk acc.reverse]) ++ pySplitAux cs []
    else
      pySplitAux cs (c :: acc)

/-- Python `str.split()` with no argument: split on whitespace runs and drop
empty pieces (so `' '.split() == []`). -/
def pySplit (s : String) : List String :=
  pySplitAux s.toList []

/-- `format_listing_message` of both modules, parametrised by the module's
message header constant.  Returns `none` when the Python code raises
`IndexError`, which happens exactly when `listing.get('name')` is truthy but
`listing.get('name', '').split()` is empty (`[0]` on an empty list). -/
def format_listing_message (msgHeader : String) (listing : Listing) : Option String :=
  let name := if truthy listing.name_long then listing.name_long.getD ""
              else listing.name.getD "Unknown"
  let lot := listing.lot.getD "N/A"
  let vin := listing.vin.getD "N/A"
  let yearOpt : Option String :=
    if truthy listing.name then (pySplit (listing.name.getD "")).head? else some "N/A"
  let odometer := listing.odometer_substr.getD "N/A"
  let location := listing.location.getD "N/A"
  let prebid := listing.prebid_price.getD "N/A"
  let status := listing.search_status.getD "N/A"
  let url := "https://bid.cars/en/lot/" ++ lot
  yearOpt.map fun year =>
    let lines :=
      [msgHeader, "", "<b>" ++ name ++ "</b>", "",
       "📅 Year: " ++ year,
       "🔢 Lot: <code>" ++ lot ++ "</code>",
       "🔑 VIN: <code>" ++ vin ++ "</code>",
       "📊 Odometer: " ++ odometer ++ "K miles",
       "📍 Location: " ++ location,
       "💰 Prebid: " ++ prebid]
    let lines := lines ++
      (if truthy listing.final_bid_formatted then
        ["🏆 Final Bid: " ++ listing.final_bid_formatted.getD ""] else [])
    let lines := lines ++
      ["📌 Status: " ++ status, "",
       "🔗 <a href=\"" ++ url ++ "\">View on Bid.cars</a>"]
    String.intercalate "\n" lines

/-- The Upstash Redis store as both modules use it: string-keyed sets
(`SMEMBERS` / `SADD`) and string-keyed scalars (`SET` / `EXISTS`). -/
structure Store where
  sets : String → Finset String
  scalars : String → Option String

/-- A store with no keys at all. -/
def Store.empty : Store := ⟨fun _ => ∅, fun _ => none⟩

/-- `smembers`: all members of a set key (empty set if the key is absent). -/
def Store.smembers (st : Store) (key : String) : Finset String := st.sets key

/-- `sadd`: add members to a set key (idempotent union). -/
def Store.sadd (st : Store) (key : String) (vals : Finset String) : Store :=
  { st with sets := fun k => if k = key then st.sets k ∪ vals else st.sets k }

/-- `set`: set a scalar key. -/
def Store.setScalar (st : Store) (key value : String) : Store :=
  { st with scalars := fun k => if k = key then some value else st.scalars k }

/-- `exists`: whether a key exists in the store. -/
def Store.existsKey (st : Store) (key : String) : Bool :=
  (st.scalars key).isSome || !decide (st.sets key = ∅)

/-- One store mutation command issued by a run. -/
inductive StoreOp where
  | sadd (key : String) (vals : Finset String)
  | setScalar (key : String) (value : String)
deriving DecidableEq

/-- The `TELEGRAM_BOT_TOKEN` / `TELEGRAM_CHAT_ID` environment configuration of
one module (unset variables are `none`). -/
structure TelegramConfig where
  bot_token : Option String := none
  chat_id : Option String := none
deriving DecidableEq

/-- Outcome of one HTTP call to the Telegram API: either an exception
(network error, non-2xx raised by `raise_for_status`, JSON decode error) or a
JSON reply whose optional `ok` field is recorded. -/
inductive TransportOutcome where
  | exn
  | reply (ok : Option Bool)
deriving DecidableEq

/-- `send_telegram_message` of both modules.  First component: the boolean the
function returns.  Second component: whether an HTTP call to the transport was
actually attempted.  With unset/empty credentials the function returns `False`
before any network activity; an exception is caught and becomes `False`; a
reply yields `response.json().get('ok', False)`. -/
def send_telegram_message (cfg : TelegramConfig) (outcome : TransportOutcome)
    (_text : String) : Bool × Bool :=
  if !truthy cfg.bot_token || !truthy cfg.chat_id then
    (false, false)
  else
    match outcome with
    | .exn => (false, true)
    | .reply ok => (ok.getD false, true)

/-- `listing.get('lot') and listing.get('lot') not in seen_lots`: the
membership test of the incremental delta computation. -/
def isNew (seen : Finset String) (l : Listing) : Bool :=
  truthy l.lot && !decide (lotStr l ∈ seen)

/-- The incremental delta: listings whose lot id is non-empty and not yet
seen, in snapshot order (a Python list comprehension over `listings`). -/
def newListings (seen : Finset String) (listings : List Listing) : List Listing :=
  listings.filter (fun l => isNew seen l)

/-- The non-empty lot ids of a snapshot, in snapshot order. -/
def truthyLots (listings : List Listing) : List String :=
  listings.filterMap fun l => if truthy l.lot then some (lotStr l) else none

/-- `{listing.get('lot') for listing in listings if listing.get('lot')}`:
the set of non-empty lot ids collected at bootstrap. -/
def bootstrapLots (listings : List Listing) : Finset String :=
  (truthyLots listings).toFinset

/-- The dictionary `run_check` returns (`new_count` is absent from the
bootstrap and no-new-listings results). -/
structure CheckResult where
  sent : Nat
  reason : String
  total : Nat
  new_count : Option Nat := none
deriving DecidableEq

/-- Everything observable about one `run_check` invocation: the returned
dictionary (or the escaped exception in `err`), the final store, the store
commands issued, the listings for which `send_telegram_message` was invoked
(`attempts`), those for which an HTTP transport call happened (`transported`),
and the lot ids whose delivery succeeded (`notified`). -/
structure RunOutput where
  result : Option CheckResult
  err : Option String
  store : Store
  ops : List StoreOp
  attempts : List Listing
  transported : List Listing
  notified : List String

/-- Accumulator state of the notification loop of `run_check`. -/
structure LoopState where
  store : Store
  sent : Nat
  calls : Nat
  ops : List StoreOp
  attempts : List Listing
  transported : List Listing
  notified : List String

/-- The loop state after `send_telegram_message` was invoked for `l` and the
delivery did not succeed. -/
def LoopState.stepFail (s : LoopState) (cfg : TelegramConfig) (l : Listing) : LoopState :=
  { s with attempts := s.attempts ++ [l],
           transported := s.transported ++
             (if truthy cfg.bot_token && truthy cfg.chat_id then [l] else []),
           calls := s.calls + 1 }

/-- The loop state after a successful delivery for `l`: the lot is `SADD`ed
immediately and the sent counter incremented. -/
def LoopState.stepSucc (s : LoopState) (cfg : TelegramConfig) (key : String)
    (l : Listing) : LoopState :=
  { s.stepFail cfg l with
      store := s.store.sadd key {lotStr l},
      sent := s.sent + 1,
      ops := s.ops ++ [StoreOp.sadd key {lotStr l}],
      notified := s.notified ++ [lotStr l] }

/-- The notification loop of `run_check` (`for listing in new_listings: ...`).
A listing with falsy lot is skipped (`if not lot: continue`); a formatting
`IndexError` aborts the loop and escapes with the state reached so far; on a
successful delivery the lot is immediately `SADD`ed and the counter bumped. -/
def notifyLoop (cfg : TelegramConfig) (transport : Nat → TransportOutcome)
    (hdr seenKey : String) : List Listing → LoopState → Option String × LoopState
  | [], s => (none, s)
  | listing :: rest, s =>
    if truthy listing.lot then
      match format_listing_message hdr listing with
      | none => (some "IndexError", s)
      | some message =>
        let r := send_telegram_message cfg (transport s.calls) message
        let s1 : LoopState :=
          { s with attempts := s.attempts ++ [listing],
                   transported := s.transported ++ (if r.2 then [listing] else []),
                   calls := s.calls + 1 }
        if r.1 then
          notifyLoop cfg transport hdr seenKey rest
            { s1 with store := s1.store.sadd seenKey {lotStr listing},
                      sent := s1.sent + 1,
                      ops := s1.ops ++ [StoreOp.sadd seenKey {lotStr listing}],
                      notified := s1.notified ++ [lotStr listing] }
        else
          notifyLoop cfg transport hdr seenKey rest s1
    else
      notifyLoop cfg transport hdr seenKey rest s

/-- Whether the k-th send, applied to this listing, succeeds (formatting
failure counts as no success — the run aborts there anyway). -/
def deliveryOk (cfg : TelegramConfig) (transport : Nat → TransportOutcome)
    (hdr : String) (k : Nat) (l : Listing) : Bool :=
  match format_listing_message hdr l with
  | none => false
  | some m => (send_telegram_message cfg (transport k) m).1

/-- The sublist of items whose delivery succeeds, when the first of them is
delivered by transport call number `k`. -/
def succItems (cfg : TelegramConfig) (transport : Nat → TransportOutcome)
    (hdr : String) : Nat → List Listing → List Listing
  | _, [] => []
  | k, l :: rest =>
    if deliveryOk cfg transport hdr k l then l :: succItems cfg transport hdr (k + 1) rest
    else succItems cfg transport hdr (k + 1) rest

namespace FlaskApp

def STORAGE_SEEN_KEY : String := "bidcars:seen-lots"

def STORAGE_INIT_KEY : String := "bidcars:seen-initialized"

/-- The module's Telegram message header constant (named
TELEGRAM_MESSAGE_... in the source). -/
def TELEGRAM_MESSAGE_HEADER : String := "🚗 ახალი Lexus NX (Bid.cars)"

/-- `run_check` of src/flask_app.py.  `if not is_init:` bootstrap, else
incremental: diff, short-circuit on empty delta, dry-run early return, then
the notification loop. -/
def run_check (cfg : TelegramConfig) (transport : Nat → TransportOutcome)
    (st : Store) (listings : List Listing) (dry_run : Bool) : RunOutput :=
  if st.existsKey STORAGE_INIT_KEY = false then
    let lots := bootstrapLots listings
    let p := if lots = ∅ then (st, ([] : List StoreOp))
             else (st.sadd STORAGE_SEEN_KEY lots, [StoreOp.sadd STORAGE_SEEN_KEY lots])
    let st2 := p.1.setScalar STORAGE_INIT_KEY "1"
    { result := some { sent := 0, reason := "bootstrap", total := listings.length },
      err := none, store := st2,
      ops := p.2 ++ [StoreOp.setScalar STORAGE_INIT_KEY "1"],
      attempts := [], transported := [], notified := [] }
  else
    let seen_lots := st.smembers STORAGE_SEEN_KEY
    let new_listings := newListings seen_lots listings
    if new_listings = [] then
      { result := some { sent := 0, reason := "no_new_listings", total := listings.length },
        err := none, store := st, ops := [], attempts := [], transported := [], notified := [] }
    else if dry_run then
      { result := some { sent := 0, reason := "dry_run", total := listings.length,
                         new_count := some new_listings.length },
        err := none, store := st, ops := [], attempts := [], transported := [], notified := [] }
    else
      let r := notifyLoop cfg transport TELEGRAM_MESSAGE_HEADER STORAGE_SEEN_KEY new_listings
        { store := st, sent := 0, calls := 0, ops := [],
          attempts := [], transported := [], notified := [] }
      match r.1 with
      | some e =>
        { result := none, err := some e, store := r.2.store, ops := r.2.ops,
          attempts := r.2.attempts, transported := r.2.transported, notified := r.2.notified }
      | none =>
        { result := some { sent := r.2.sent, reason := "new_listings", total := listings.length,
                           new_count := some new_listings.length },
          err := none, store := r.2.store, ops := r.2.ops, attempts := r.2.attempts,
          transported := r.2.transported, notified := r.2.notified }

end FlaskApp

namespace Toyota

def STORAGE_SEEN_KEY : String := "bidcars:seen-lots"

def STORAGE_INIT_KEY : String := "bidcars:seen-initialized"

/-- The module's Telegram message header constant (named
TELEGRAM_MESSAGE_... in the source). -/
def TELEGRAM_MESSAGE_HEADER : String := "🚗 ახალი Toyota (Bid.cars)"

/-- `run_check` of src/toyota.py.  The signature takes `dry_run` but, unlike
src/flask_app.py, the body never reads it: there is no dry-run early return. -/
def run_check (cfg : TelegramConfig) (transport : Nat → TransportOutcome)
    (st : Store) (listings : List Listing) (dry_run : Bool) : RunOutput :=
  if st.existsKey STORAGE_INIT_KEY = false then
    let lots := bootstrapLots listings
    let p := if lots = ∅ then (st, ([] : List StoreOp))
             else (st.sadd STORAGE_SEEN_KEY lots, [StoreOp.sadd STORAGE_SEEN_KEY lots])
    let st2 := p.1.setScalar STORAGE_INIT_KEY "1"
    { result := some { sent := 0, reason := "bootstrap", total := listings.length },
      err := none, store := st2,
      ops := p.2 ++ [StoreOp.setScalar STORAGE_INIT_KEY "1"],
      attempts := [], transported := [], notified := [] }
  else
    let seen_lots := st.smembers STORAGE_SEEN_KEY
    let new_listings := newListings seen_lots listings
    if new_listings = [] then
      { result := some { sent := 0, reason := "no_new_listings", total := listings.length },
        err := none, store := st, ops := [], attempts := [], transported := [], notified := [] }
    else
      let r := notifyLoop cfg transport TELEGRAM_MESSAGE_HEADER STORAGE_SEEN_KEY new_listings
        { store := st, sent := 0, calls := 0, ops := [],
          attempts := [], transported := [], notified := [] }
      match r.1 with
      | some e =>
        { result := none, err := some e, store := r.2.store, ops := r.2.ops,
          attempts := r.2.attempts, transported := r.2.transported, notified := r.2.notified }
      | none =>
        { result := some { sent := r.2.sent, reason := "new_listings", total := listings.length,
                           new_count := some new_listings.length },
          err := none, store := r.2.store, ops := r.2.ops, attempts := r.2.attempts,
          transported := r.2.transported, notified := r.2.notified }

end Toyota

/-- The inputs of one run of the flask_app orchestrator in a sequence of
runs: its Telegram configuration, its transport oracle, the snapshot its
fetch returns, and the dry-run flag of its trigger. -/
structure RunSpec where
  cfg : TelegramConfig
  transport : Nat → TransportOutcome
  listings : List Listing
  dry : Bool

/-- A sequence of flask_app runs threaded through the store: returns the
final store and the concatenation, in order, of the successfully notified
lot ids of every run. -/
def runSeq : List RunSpec → Store → Store × List String
  | [], st => (st, [])
  | sp :: rest, st =>
    let out := FlaskApp.run_check sp.cfg sp.transport st sp.listings sp.dry
    let r := runSeq rest out.store
    (r.1, out.notified ++ r.2)

/-! ### Basic lemmas about the store, the transport and the formatter -/

theorem Store.sadd_sets (st : Store) (key : String) (vals : Finset String) (k : String) :
    (st.sadd key vals).sets k = if k = key then st.sets k ∪ vals else st.sets k := rfl

theorem Store.sadd_scalars (st : Store) (key : String) (vals : Finset String) :
    (st.sadd key vals).scalars = st.scalars := rfl

theorem Store.setScalar_sets (st : Store) (key value : String) :
    (st.setScalar key value).sets = st.sets := rfl

theorem Store.sets_subset_sadd (st : Store) (key : String) (vals : Finset String) (k : String) :
    st.sets k ⊆ (st.sadd key vals).sets k := by
  rw [Store.sadd_sets]
  split
  · exact Finset.subset_union_left
  · exact Finset.Subset.refl _

theorem send_attempted (cfg : TelegramConfig) (o : TransportOutcome) (t : String) :
    (send_telegram_message cfg o t).2 = (truthy cfg.bot_token && truthy cfg.chat_id) := by
  cases hb : truthy cfg.bot_token <;> cases hc : truthy cfg.chat_id <;>
    cases o <;> simp [send_telegram_message, hb, hc]

theorem send_bad_creds (cfg : TelegramConfig) (o : TransportOutcome) (t : String)
    (h : truthy cfg.bot_token = false ∨ truthy cfg.chat_id = false) :
    send_telegram_message cfg o t = (false, false) := by
  rcases h with h | h <;> simp [send_telegram_message, h]

theorem send_result_true_iff (cfg : TelegramConfig) (o : TransportOutcome) (t : String) :
    ((send_telegram_message cfg o t).1 = true) ↔
      (truthy cfg.bot_token = true ∧ truthy cfg.chat_id = true ∧
        o = TransportOutcome.reply (some true)) := by
  cases hb : truthy cfg.bot_token <;> cases hc : truthy cfg.chat_id <;>
    rcases o with _ | (_ | b) <;> simp [send_telegram_message, hb, hc]

theorem format_eq_none_iff (hdr : String) (l : Listing) :
    format_listing_message hdr l = none ↔
      (truthy l.name = true ∧ pySplit (l.name.getD "") = []) := by
  unfold format_listing_message
  cases h : truthy l.name <;>
    simp [h, Option.map_eq_none', List.head?_eq_none_iff]

theorem format_none_hdr (h1 h2 : String) (l : Listing) :
    format_listing_message h1 l = none ↔ format_listing_message h2 l = none := by
  rw [format_eq_none_iff, format_eq_none_iff]

/-! ### Lemmas about the delta computation -/

theorem mem_newListings (seen : Finset String) (ls : List Listing) (l : Listing) :
    l ∈ newListings seen ls ↔
      (l ∈ ls ∧ ∃ s, l.lot = some s ∧ s ≠ "" ∧ s ∉ seen) := by
  cases h : l.lot <;>
    simp [newListings, List.mem_filter, isNew, truthy, lotStr, h]

theorem newListings_sublist (seen : Finset String) (ls : List Listing) :
    List.Sublist (newListings seen ls) ls :=
  List.filter_sublist _

theorem newListings_lots_sublist (seen : Finset String) (ls : List Listing) :
    List.Sublist ((newListings seen ls).map lotStr) (truthyLots ls) := by
  induction ls with
  | nil => simp [newListings, truthyLots]
  | cons l rest ih =>
    by_cases h : isNew seen l = true
    · have ht : truthy l.lot = true := by
        have := h
        simp [isNew] at this
        exact this.1
      simp only [newListings, truthyLots, List.filter_cons, List.filterMap_cons, h, ht,
        if_true, if_pos]
      exact List.Sublist.cons₂ _ ih
    · by_cases ht : truthy l.lot = true
      · simp only [newListings, truthyLots, List.filter_cons, List.filterMap_cons, h, ht,
          if_true, if_false, Bool.false_eq_true]
        simp only [newListings, truthyLots] at ih
        exact ih.cons _
      · simp only [newListings, truthyLots, List.filter_cons, List.filterMap_cons]
        rw [if_neg h, if_neg ht]
        exact ih

/-! ### Lemmas about the successful-delivery sublist -/

theorem succItems_sublist (cfg : TelegramConfig) (tr : Nat → TransportOutcome) (hdr : String) :
    ∀ (k : Nat) (items : List Listing), List.Sublist (succItems cfg tr hdr k items) items := by
  intro k items
  induction items generalizing k with
  | nil => simp [succItems]
  | cons l rest ih =>
    rw [succItems]
    split
    · exact List.Sublist.cons₂ _ (ih _)
    · exact (ih _).cons _

theorem succItems_append (cfg : TelegramConfig) (tr : Nat → TransportOutcome) (hdr : String) :
    ∀ (as bs : List Listing) (k : Nat),
      succItems cfg tr hdr k (as ++ bs) =
        succItems cfg tr hdr k as ++ succItems cfg tr hdr (k + as.length) bs := by
  intro as
  induction as with
  | nil => intro bs k; simp [succItems]
  | cons a as ih =>
    intro bs k
    have hk : k + 1 + as.length = k + (as.length + 1) := by omega
    rw [List.cons_append, succItems, succItems, ih bs (k + 1), hk]
    split <;> simp [List.length_cons]

theorem truthy_lot (l : Listing) (h : truthy l.lot = true) :
    l.lot = some (lotStr l) ∧ lotStr l ≠ "" := by
  cases hl : l.lot with
  | none => rw [hl] at h; simp [truthy] at h
  | some s =>
    rw [hl] at h
    simp only [truthy, bne_iff_ne, ne_eq] at h
    simp [lotStr, hl, h]

/-! ### Step lemmas for the notification loop -/

theorem notifyLoop_cons_skip (cfg : TelegramConfig) (tr : Nat → TransportOutcome)
    (hdr key : String) (l : Listing) (rest : List Listing) (s : LoopState)
    (hl : truthy l.lot = false) :
    notifyLoop cfg tr hdr key (l :: rest) s = notifyLoop cfg tr hdr key rest s := by
  simp [notifyLoop, hl]

theorem notifyLoop_cons_err (cfg : TelegramConfig) (tr : Nat → TransportOutcome)
    (hdr key : String) (l : Listing) (rest : List Listing) (s : LoopState)
    (hl : truthy l.lot = true) (e : format_listing_message hdr l = none) :
    notifyLoop cfg tr hdr key (l :: rest) s = (some "IndexError", s) := by
  simp [notifyLoop, hl, e]

theorem notifyLoop_cons_fail (cfg : TelegramConfig) (tr : Nat → TransportOutcome)
    (hdr key : String) (l : Listing) (rest : List Listing) (s : LoopState) (m : String)
    (hl : truthy l.lot = true) (e : format_listing_message hdr l = some m)
    (hr : (send_telegram_message cfg (tr s.calls) m).1 = false) :
    notifyLoop cfg tr hdr key (l :: rest) s =
      notifyLoop cfg tr hdr key rest (s.stepFail cfg l) := by
  simp [notifyLoop, LoopState.stepFail, hl, e, hr, send_attempted]

theorem notifyLoop_cons_succ (cfg : TelegramConfig) (tr : Nat → TransportOutcome)
    (hdr key : String) (l : Listing) (rest : List Listing) (s : LoopState) (m : String)
    (hl : truthy l.lot = true) (e : format_listing_message hdr l = some m)
    (hr : (send_telegram_message cfg (tr s.calls) m).1 = true) :
    notifyLoop cfg tr hdr key (l :: rest) s =
      notifyLoop cfg tr hdr key rest (s.stepSucc cfg key l) := by
  simp [notifyLoop, LoopState.stepSucc, LoopState.stepFail, hl, e, hr, send_attempted]

/-! ### Invariants of the notification loop -/

theorem notifyLoop_sets_mono (cfg : TelegramConfig) (tr : Nat → TransportOutcome)
    (hdr key : String) :
    ∀ (items : List Listing) (s : LoopState) (k : String),
      s.store.sets k ⊆ (notifyLoop cfg tr hdr key items s).2.store.sets k := by
  intro items
  induction items with
  | nil => intro s k; exact Finset.Subset.refl _
  | cons l rest ih =>
    intro s k
    cases hl : truthy l.lot with
    | false => rw [notifyLoop_cons_skip cfg tr hdr key l rest s hl]; exact ih s k
    | true =>
      rcases e : format_listing_message hdr l with _ | m
      · rw [notifyLoop_cons_err cfg tr hdr key l rest s hl e]
      · cases hr : (send_telegram_message cfg (tr s.calls) m).1 with
        | false =>
          rw [notifyLoop_cons_fail cfg tr hdr key l rest s m hl e hr]
          exact ih (s.stepFail cfg l) k
        | true =>
          rw [notifyLoop_cons_succ cfg tr hdr key l rest s m hl e hr]
          exact Finset.Subset.trans (Store.sets_subset_sadd s.store key {lotStr l} k)
            (ih (s.stepSucc cfg key l) k)

theorem notifyLoop_scalars (cfg : TelegramConfig) (tr : Nat → TransportOutcome)
    (hdr key : String) :
    ∀ (items : List Listing) (s : LoopState),
      (notifyLoop cfg tr hdr key items s).2.store.scalars = s.store.scalars := by
  intro items
  induction items with
  | nil => intro s; rfl
  | cons l rest ih =>
    intro s
    cases hl : truthy l.lot with
    | false => rw [notifyLoop_cons_skip cfg tr hdr key l rest s hl]; exact ih s
    | true =>
      rcases e : format_listing_message hdr l with _ | m
      · rw [notifyLoop_cons_err cfg tr hdr key l rest s hl e]
      · cases hr : (send_telegram_message cfg (tr s.calls) m).1 with
        | false =>
          rw [notifyLoop_cons_fail cfg tr hdr key l rest s m hl e hr]
          exact ih (s.stepFail cfg l)
        | true =>
          rw [notifyLoop_cons_succ cfg tr hdr key l rest s m hl e hr]
          rw [ih (s.stepSucc cfg key l)]
          rfl

theorem notifyLoop_sets_origin (cfg : TelegramConfig) (tr : Nat → TransportOutcome)
    (hdr key : String) :
    ∀ (items : List Listing) (s : LoopState) (k : String) (x : String),
      x ∈ (notifyLoop cfg tr hdr key items s).2.store.sets k →
      x ∈ s.store.sets k ∨ (k = key ∧ ∃ l, l ∈ items ∧ l.lot = some x ∧ x ≠ "") := by
  intro items
  induction items with
  | nil => intro s k x h; exact Or.inl h
  | cons l rest ih =>
    intro s k x h
    cases hl : truthy l.lot with
    | false =>
      rw [notifyLoop_cons_skip cfg tr hdr key l rest s hl] at h
      rcases ih s k x h with h1 | ⟨hk, l', hl', hlot, hne⟩
      · exact Or.inl h1
      · exact Or.inr ⟨hk, l', List.mem_cons_of_mem _ hl', hlot, hne⟩
    | true =>
      rcases e : format_listing_message hdr l with _ | m
      · rw [notifyLoop_cons_err cfg tr hdr key l rest s hl e] at h
        exact Or.inl h
      · cases hr : (send_telegram_message cfg (tr s.calls) m).1 with
        | false =>
          rw [notifyLoop_cons_fail cfg tr hdr key l rest s m hl e hr] at h
          rcases ih (s.stepFail cfg l) k x h with h1 | ⟨hk, l', hl', hlot, hne⟩
          · exact Or.inl h1
          · exact Or.inr ⟨hk, l', List.mem_cons_of_mem _ hl', hlot, hne⟩
        | true =>
          rw [notifyLoop_cons_succ cfg tr hdr key l rest s m hl e hr] at h
          rcases ih (s.stepSucc cfg key l) k x h with h1 | ⟨hk, l', hl', hlot, hne⟩
          · simp only [LoopState.stepSucc, LoopState.stepFail] at h1
            rw [Store.sadd_sets] at h1
            by_cases hkk : k = key
            · rw [if_pos hkk] at h1
              rcases Finset.mem_union.mp h1 with h2 | h2
              · exact Or.inl h2
              · have hx : x = lotStr l := Finset.mem_singleton.mp h2
                obtain ⟨hlot, hne⟩ := truthy_lot l hl
                exact Or.inr ⟨hkk, l, List.mem_cons_self _ _, by rw [hx]; exact hlot,
                  by rw [hx]; exact hne⟩
            · rw [if_neg hkk] at h1
              exact Or.inl h1
          · exact Or.inr ⟨hk, l', List.mem_cons_of_mem _ hl', hlot, hne⟩

theorem notifyLoop_attempts_origin (cfg : TelegramConfig) (tr : Nat → TransportOutcome)
    (hdr key : String) :
    ∀ (items : List Listing) (s : LoopState) (x : Listing),
      x ∈ (notifyLoop cfg tr hdr key items s).2.attempts →
      x ∈ s.attempts ∨ x ∈ items := by
  intro items
  induction items with
  | nil => intro s x h; exact Or.inl h
  | cons l rest ih =>
    intro s x h
    cases hl : truthy l.lot with
    | false =>
      rw [notifyLoop_cons_skip cfg tr hdr key l rest s hl] at h
      exact (ih s x h).imp_right (List.mem_cons_of_mem _)
    | true =>
      rcases e : format_listing_message hdr l with _ | m
      · rw [notifyLoop_cons_err cfg tr hdr key l rest s hl e] at h
        exact Or.inl h
      · cases hr : (send_telegram_message cfg (tr s.calls) m).1 with
        | false =>
          rw [notifyLoop_cons_fail cfg tr hdr key l rest s m hl e hr] at h
          rcases ih (s.stepFail cfg l) x h with h1 | h1
          · simp only [LoopState.stepFail] at h1
            rcases List.mem_append.mp h1 with h2 | h2
            · exact Or.inl h2
            · exact Or.inr (by rw [List.mem_singleton.mp h2]; exact List.mem_cons_self _ _)
          · exact Or.inr (List.mem_cons_of_mem _ h1)
        | true =>
          rw [notifyLoop_cons_succ cfg tr hdr key l rest s m hl e hr] at h
          rcases ih (s.stepSucc cfg key l) x h with h1 | h1
          · simp only [LoopState.stepSucc, LoopState.stepFail] at h1
            rcases List.mem_append.mp h1 with h2 | h2
            · exact Or.inl h2
            · exact Or.inr (by rw [List.mem_singleton.mp h2]; exact List.mem_cons_self _ _)
          · exact Or.inr (List.mem_cons_of_mem _ h1)

theorem notifyLoop_notified (cfg : TelegramConfig) (tr : Nat → TransportOutcome)
    (hdr key : String) :
    ∀ (items : List Listing) (s : LoopState),
      ∃ N, (notifyLoop cfg tr hdr key items s).2.notified = s.notified ++ N ∧
        List.Sublist N (items.map lotStr) ∧
        ∀ x ∈ N, (∃ l, l ∈ items ∧ l.lot = some x ∧ x ≠ "") ∧
          x ∈ (notifyLoop cfg tr hdr key items s).2.store.sets key := by
  intro items
  induction items with
  | nil => intro s; exact ⟨[], by simp [notifyLoop], List.Sublist.refl _, by simp⟩
  | cons l rest ih =>
    intro s
    cases hl : truthy l.lot with
    | false =>
      rw [notifyLoop_cons_skip cfg tr hdr key l rest s hl]
      obtain ⟨N, hN, hsub, hmem⟩ := ih s
      exact ⟨N, hN, hsub.cons _, fun x hx =>
        ⟨(hmem x hx).1.imp fun l' h => ⟨List.mem_cons_of_mem _ h.1, h.2⟩, (hmem x hx).2⟩⟩
    | true =>
      rcases e : format_listing_message hdr l with _ | m
      · rw [notifyLoop_cons_err cfg tr hdr key l rest s hl e]
        exact ⟨[], by simp, List.nil_sublist _, by simp⟩
      · cases hr : (send_telegram_message cfg (tr s.calls) m).1 with
        | false =>
          rw [notifyLoop_cons_fail cfg tr hdr key l rest s m hl e hr]
          obtain ⟨N, hN, hsub, hmem⟩ := ih (s.stepFail cfg l)
          refine ⟨N, ?_, hsub.cons _, fun x hx =>
            ⟨(hmem x hx).1.imp fun l' h => ⟨List.mem_cons_of_mem _ h.1, h.2⟩, (hmem x hx).2⟩⟩
          rw [hN]; rfl
        | true =>
          rw [notifyLoop_cons_succ cfg tr hdr key l rest s m hl e hr]
          obtain ⟨N, hN, hsub, hmem⟩ := ih (s.stepSucc cfg key l)
          refine ⟨lotStr l :: N, ?_, List.Sublist.cons₂ _ hsub, ?_⟩
          · rw [hN]
            simp [LoopState.stepSucc, LoopState.stepFail]
          · intro x hx
            rcases List.mem_cons.mp hx with hx1 | hx1
            · obtain ⟨hlot, hne⟩ := truthy_lot l hl
              refine ⟨⟨l, List.mem_cons_self _ _, by rw [hx1]; exact hlot,
                by rw [hx1]; exact hne⟩, ?_⟩
              subst hx1
              refine (notifyLoop_sets_mono cfg tr hdr key rest (s.stepSucc cfg key l) key) ?_
              show lotStr l ∈ (s.store.sadd key {lotStr l}).sets key
              rw [Store.sadd_sets, if_pos rfl]
              exact Finset.mem_union_right _ (Finset.mem_singleton_self _)
            · exact ⟨((hmem x hx1).1).imp fun l' h => ⟨List.mem_cons_of_mem _ h.1, h.2⟩,
                (hmem x hx1).2⟩

theorem notifyLoop_hdr (cfg : TelegramConfig) (tr : Nat → TransportOutcome)
    (h1 h2 key : String) :
    ∀ (items : List Listing) (s : LoopState),
      notifyLoop cfg tr h1 key items s = notifyLoop cfg tr h2 key items s := by
  intro items
  induction items with
  | nil => intro s; rfl
  | cons l rest ih =>
    intro s
    cases hl : truthy l.lot with
    | false =>
      rw [notifyLoop_cons_skip cfg tr h1 key l rest s hl,
          notifyLoop_cons_skip cfg tr h2 key l rest s hl]
      exact ih s
    | true =>
      rcases e1 : format_listing_message h1 l with _ | m1
      · have e2 : format_listing_message h2 l = none := (format_none_hdr h1 h2 l).mp e1
        rw [notifyLoop_cons_err cfg tr h1 key l rest s hl e1,
            notifyLoop_cons_err cfg tr h2 key l rest s hl e2]
      · rcases e2 : format_listing_message h2 l with _ | m2
        · exfalso
          have hcontra := (format_none_hdr h2 h1 l).mp e2
          rw [hcontra] at e1
          exact Option.noConfusion e1
        · have hsend : send_telegram_message cfg (tr s.calls) m1 =
              send_telegram_message cfg (tr s.calls) m2 := rfl
          cases hr : (send_telegram_message cfg (tr s.calls) m1).1 with
          | false =>
            have hr2 : (send_telegram_message cfg (tr s.calls) m2).1 = false := by
              rw [← hsend]; exact hr
            rw [notifyLoop_cons_fail cfg tr h1 key l rest s m1 hl e1 hr,
                notifyLoop_cons_fail cfg tr h2 key l rest s m2 hl e2 hr2]
            exact ih _
          | true =>
            have hr2 : (send_telegram_message cfg (tr s.calls) m2).1 = true := by
              rw [← hsend]; exact hr
            rw [notifyLoop_cons_succ cfg tr h1 key l rest s m1 hl e1 hr,
                notifyLoop_cons_succ cfg tr h2 key l rest s m2 hl e2 hr2]
            exact ih _

theorem succItems_bad_creds (cfg : TelegramConfig) (tr : Nat → TransportOutcome)
    (hdr : String) (h : truthy cfg.bot_token = false ∨ truthy cfg.chat_id = false) :
    ∀ (k : Nat) (items : List Listing), succItems cfg tr hdr k items = [] := by
  intro k items
  induction items generalizing k with
  | nil => rfl
  | cons l rest ih =>
    have hd : deliveryOk cfg tr hdr k l = false := by
      rcases e : format_listing_message hdr l with _ | m
      · simp [deliveryOk, e]
      · simp [deliveryOk, e, send_bad_creds cfg (tr k) m h]
    rw [succItems, if_neg (by rw [hd]; exact Bool.false_ne_true), ih]

theorem notifyLoop_run (cfg : TelegramConfig) (tr : Nat → TransportOutcome)
    (hdr key : String) :
    ∀ (items : List Listing) (s : LoopState),
      (∀ l ∈ items, truthy l.lot = true) →
      (∀ l ∈ items, (format_listing_message hdr l).isSome = true) →
      (notifyLoop cfg tr hdr key items s).1 = none ∧
      (notifyLoop cfg tr hdr key items s).2.attempts = s.attempts ++ items ∧
      (notifyLoop cfg tr hdr key items s).2.transported = s.transported ++
        (if truthy cfg.bot_token && truthy cfg.chat_id then items else []) ∧
      (notifyLoop cfg tr hdr key items s).2.sent =
        s.sent + (succItems cfg tr hdr s.calls items).length ∧
      (notifyLoop cfg tr hdr key items s).2.notified =
        s.notified ++ (succItems cfg tr hdr s.calls items).map lotStr ∧
      (notifyLoop cfg tr hdr key items s).2.ops =
        s.ops ++ (succItems cfg tr hdr s.calls items).map
          (fun l => StoreOp.sadd key {lotStr l}) ∧
      (∀ k, (notifyLoop cfg tr hdr key items s).2.store.sets k =
        if k = key then
          s.store.sets k ∪ ((succItems cfg tr hdr s.calls items).map lotStr).toFinset
        else s.store.sets k) ∧
      (notifyLoop cfg tr hdr key items s).2.store.scalars = s.store.scalars ∧
      (notifyLoop cfg tr hdr key items s).2.calls = s.calls + items.length := by
  intro items
  induction items with
  | nil =>
    intro s _ _
    refine ⟨rfl, by simp [notifyLoop], ?_, by simp [notifyLoop, succItems],
      by simp [notifyLoop, succItems], by simp [notifyLoop, succItems], ?_, rfl, rfl⟩
    · cases hc : truthy cfg.bot_token && truthy cfg.chat_id <;> simp [notifyLoop, hc]
    · intro k
      split <;> simp [notifyLoop, succItems]
  | cons l rest ih =>
    intro s h1 h2
    have hl : truthy l.lot = true := h1 l (List.mem_cons_self _ _)
    have hf : (format_listing_message hdr l).isSome = true := h2 l (List.mem_cons_self _ _)
    obtain ⟨m, e⟩ := Option.isSome_iff_exists.mp hf
    have h1' : ∀ l' ∈ rest, truthy l'.lot = true :=
      fun l' hl' => h1 l' (List.mem_cons_of_mem _ hl')
    have h2' : ∀ l' ∈ rest, (format_listing_message hdr l').isSome = true :=
      fun l' hl' => h2 l' (List.mem_cons_of_mem _ hl')
    have hdel : deliveryOk cfg tr hdr s.calls l =
        (send_telegram_message cfg (tr s.calls) m).1 := by
      simp [deliveryOk, e]
    cases hr : (send_telegram_message cfg (tr s.calls) m).1 with
    | false =>
      have hsucc : succItems cfg tr hdr s.calls (l :: rest) =
          succItems cfg tr hdr (s.calls + 1) rest := by
        rw [succItems, if_neg (by rw [hdel, hr]; exact Bool.false_ne_true)]
      rw [notifyLoop_cons_fail cfg tr hdr key l rest s m hl e hr, hsucc]
      obtain ⟨ih1, ih2, ih3, ih4, ih5, ih6, ih7, ih8, ih9⟩ := ih (s.stepFail cfg l) h1' h2'
      refine ⟨ih1, ?_, ?_, ?_, ?_, ?_, ?_, ?_, ?_⟩
      · rw [ih2]; simp [LoopState.stepFail]
      · rw [ih3]
        cases hc : truthy cfg.bot_token && truthy cfg.chat_id <;> simp [LoopState.stepFail, hc]
      · rw [ih4]; rfl
      · rw [ih5]; rfl
      · rw [ih6]; rfl
      · intro k
        rw [ih7 k]; rfl
      · rw [ih8]; rfl
      · rw [ih9]
        simp only [LoopState.stepFail, List.length_cons]
        omega
    | true =>
      have hsucc : succItems cfg tr hdr s.calls (l :: rest) =
          l :: succItems cfg tr hdr (s.calls + 1) rest := by
        rw [succItems, if_pos (hdel.trans hr)]
      rw [notifyLoop_cons_succ cfg tr hdr key l rest s m hl e hr, hsucc]
      obtain ⟨ih1, ih2, ih3, ih4, ih5, ih6, ih7, ih8, ih9⟩ := ih (s.stepSucc cfg key l) h1' h2'
      refine ⟨ih1, ?_, ?_, ?_, ?_, ?_, ?_, ?_, ?_⟩
      · rw [ih2]; simp [LoopState.stepSucc, LoopState.stepFail]
      · rw [ih3]
        cases hc : truthy cfg.bot_token && truthy cfg.chat_id <;>
          simp [LoopState.stepSucc, LoopState.stepFail, hc]
      · rw [ih4]
        simp only [LoopState.stepSucc, LoopState.stepFail, List.length_cons]
        omega
      · rw [ih5]
        simp [LoopState.stepSucc, LoopState.stepFail]
      · rw [ih6]
        simp [LoopState.stepSucc, LoopState.stepFail]
      · intro k
        rw [ih7 k]
        simp only [LoopState.stepSucc, LoopState.stepFail]
        by_cases hk : k = key
        · rw [if_pos hk, if_pos hk, Store.sadd_sets, if_pos hk]
          ext x
          simp [List.mem_toFinset]
          tauto
        · rw [if_neg hk, if_neg hk, Store.sadd_sets, if_neg hk]
      · rw [ih8]; rfl
      · rw [ih9]
        simp only [LoopState.stepSucc, LoopState.stepFail, List.length_cons]
        omega

/-! ### Lemmas about the orchestrators -/

theorem mem_truthyLots (ls : List Listing) (x : String) :
    x ∈ truthyLots ls ↔ ∃ l ∈ ls, l.lot = some x ∧ x ≠ "" := by
  simp only [truthyLots, List.mem_filterMap]
  constructor
  · rintro ⟨l, hl, hf⟩
    by_cases ht : truthy l.lot = true
    · rw [if_pos ht] at hf
      obtain ⟨hlot, hne⟩ := truthy_lot l ht
      have hx : lotStr l = x := Option.some.inj hf
      exact ⟨l, hl, by rw [hlot, hx], by rw [← hx]; exact hne⟩
    · rw [if_neg ht] at hf
      exact Option.noConfusion hf
  · rintro ⟨l, hl, hlot, hne⟩
    have ht : truthy l.lot = true := by
      rw [hlot]
      simp [truthy]
      exact hne
    refine ⟨l, hl, ?_⟩
    rw [if_pos ht]
    simp [lotStr, hlot]

theorem mem_bootstrapLots (ls : List Listing) (x : String) :
    x ∈ bootstrapLots ls ↔ ∃ l ∈ ls, l.lot = some x ∧ x ≠ "" := by
  rw [bootstrapLots, List.mem_toFinset, mem_truthyLots]

theorem toyota_run_check_eq_flask (cfg : TelegramConfig) (tr : Nat → TransportOutcome)
    (st : Store) (ls : List Listing) (d : Bool) :
    Toyota.run_check cfg tr st ls d = FlaskApp.run_check cfg tr st ls false := by
  unfold Toyota.run_check FlaskApp.run_check
  simp only [Toyota.STORAGE_SEEN_KEY, Toyota.STORAGE_INIT_KEY,
    FlaskApp.STORAGE_SEEN_KEY, FlaskApp.STORAGE_INIT_KEY,
    notifyLoop_hdr cfg tr Toyota.TELEGRAM_MESSAGE_HEADER FlaskApp.TELEGRAM_MESSAGE_HEADER]
  simp

theorem flask_run_check_bootstrap (cfg : TelegramConfig) (tr : Nat → TransportOutcome)
    (st : Store) (ls : List Listing) (d : Bool)
    (hinit : st.existsKey FlaskApp.STORAGE_INIT_KEY = false) :
    FlaskApp.run_check cfg tr st ls d =
      { result := some { sent := 0, reason := "bootstrap", total := ls.length },
        err := none,
        store := (if bootstrapLots ls = ∅ then st
                  else st.sadd FlaskApp.STORAGE_SEEN_KEY (bootstrapLots ls)).setScalar
                 FlaskApp.STORAGE_INIT_KEY "1",
        ops := (if bootstrapLots ls = ∅ then [] else
          [StoreOp.sadd FlaskApp.STORAGE_SEEN_KEY (bootstrapLots ls)]) ++
          [StoreOp.setScalar FlaskApp.STORAGE_INIT_KEY "1"],
        attempts := [], transported := [], notified := [] } := by
  unfold FlaskApp.run_check
  rw [if_pos hinit]
  by_cases h : bootstrapLots ls = ∅ <;> simp [h]

theorem flask_run_check_no_new (cfg : TelegramConfig) (tr : Nat → TransportOutcome)
    (st : Store) (ls : List Listing) (d : Bool)
    (hinit : st.existsKey FlaskApp.STORAGE_INIT_KEY = true)
    (hdelta : newListings (st.sets FlaskApp.STORAGE_SEEN_KEY) ls = []) :
    FlaskApp.run_check cfg tr st ls d =
      { result := some { sent := 0, reason := "no_new_listings", total := ls.length },
        err := none, store := st, ops := [],
        attempts := [], transported := [], notified := [] } := by
  unfold FlaskApp.run_check Store.smembers
  rw [if_neg (by simp [hinit]), if_pos hdelta]

theorem flask_run_check_dry (cfg : TelegramConfig) (tr : Nat → TransportOutcome)
    (st : Store) (ls : List Listing)
    (hinit : st.existsKey FlaskApp.STORAGE_INIT_KEY = true)
    (hdelta : newListings (st.sets FlaskApp.STORAGE_SEEN_KEY) ls ≠ []) :
    FlaskApp.run_check cfg tr st ls true =
      { result := some
          { sent := 0, reason := "dry_run", total := ls.length,
            new_count := some (newListings (st.sets FlaskApp.STORAGE_SEEN_KEY) ls).length },
        err := none, store := st, ops := [],
        attempts := [], transported := [], notified := [] } := by
  unfold FlaskApp.run_check Store.smembers
  rw [if_neg (by simp [hinit]), if_neg hdelta, if_pos rfl]

theorem flask_run_check_notify_ok (cfg : TelegramConfig) (tr : Nat → TransportOutcome)
    (st : Store) (ls : List Listing)
    (hinit : st.existsKey FlaskApp.STORAGE_INIT_KEY = true)
    (hdelta : newListings (st.sets FlaskApp.STORAGE_SEEN_KEY) ls ≠ [])
    (hres : (notifyLoop cfg tr FlaskApp.TELEGRAM_MESSAGE_HEADER FlaskApp.STORAGE_SEEN_KEY
        (newListings (st.sets FlaskApp.STORAGE_SEEN_KEY) ls)
        { store := st, sent := 0, calls := 0, ops := [],
          attempts := [], transported := [], notified := [] }).1 = none) :
    FlaskApp.run_check cfg tr st ls false =
      { result := some
          { sent := (notifyLoop cfg tr FlaskApp.TELEGRAM_MESSAGE_HEADER
              FlaskApp.STORAGE_SEEN_KEY (newListings (st.sets FlaskApp.STORAGE_SEEN_KEY) ls)
              { store := st, sent := 0, calls := 0, ops := [],
                attempts := [], transported := [], notified := [] }).2.sent,
            reason := "new_listings", total := ls.length,
            new_count := some (newListings (st.sets FlaskApp.STORAGE_SEEN_KEY) ls).length },
        err := none,
        store := (notifyLoop cfg tr FlaskApp.TELEGRAM_MESSAGE_HEADER
            FlaskApp.STORAGE_SEEN_KEY (newListings (st.sets FlaskApp.STORAGE_SEEN_KEY) ls)
            { store := st, sent := 0, calls := 0, ops := [],
              attempts := [], transported := [], notified := [] }).2.store,
        ops := (notifyLoop cfg tr FlaskApp.TELEGRAM_MESSAGE_HEADER
            FlaskApp.STORAGE_SEEN_KEY (newListings (st.sets FlaskApp.STORAGE_SEEN_KEY) ls)
            { store := st, sent := 0, calls := 0, ops := [],
              attempts := [], transported := [], notified := [] }).2.ops,
        attempts := (notifyLoop cfg tr FlaskApp.TELEGRAM_MESSAGE_HEADER
            FlaskApp.STORAGE_SEEN_KEY (newListings (st.sets FlaskApp.STORAGE_SEEN_KEY) ls)
            { store := st, sent := 0, calls := 0, ops := [],
              attempts := [], transported := [], notified := [] }).2.attempts,
        transported := (notifyLoop cfg tr FlaskApp.TELEGRAM_MESSAGE_HEADER
            FlaskApp.STORAGE_SEEN_KEY (newListings (st.sets FlaskApp.STORAGE_SEEN_KEY) ls)
            { store := st, sent := 0, calls := 0, ops := [],
              attempts := [], transported := [], notified := [] }).2.transported,
        notified := (notifyLoop cfg tr FlaskApp.TELEGRAM_MESSAGE_HEADER
            FlaskApp.STORAGE_SEEN_KEY (newListings (st.sets FlaskApp.STORAGE_SEEN_KEY) ls)
            { store := st, sent := 0, calls := 0, ops := [],
              attempts := [], transported := [], notified := [] }).2.notified } := by
  unfold FlaskApp.run_check Store.smembers
  rw [if_neg (by simp [hinit]), if_neg hdelta, if_neg Bool.false_ne_true]
  simp only [hres]

theorem flask_run_check_notify_err (cfg : TelegramConfig) (tr : Nat → TransportOutcome)
    (st : Store) (ls : List Listing) (msg : String)
    (hinit : st.existsKey FlaskApp.STORAGE_INIT_KEY = true)
    (hdelta : newListings (st.sets FlaskApp.STORAGE_SEEN_KEY) ls ≠ [])
    (hres : (notifyLoop cfg tr FlaskApp.TELEGRAM_MESSAGE_HEADER FlaskApp.STORAGE_SEEN_KEY
        (newListings (st.sets FlaskApp.STORAGE_SEEN_KEY) ls)
        { store := st, sent := 0, calls := 0, ops := [],
          attempts := [], transported := [], notified := [] }).1 = some msg) :
    FlaskApp.run_check cfg tr st ls false =
      { result := none,
        err := some msg,
        store := (notifyLoop cfg tr FlaskApp.TELEGRAM_MESSAGE_HEADER
            FlaskApp.STORAGE_SEEN_KEY (newListings (st.sets FlaskApp.STORAGE_SEEN_KEY) ls)
            { store := st, sent := 0, calls := 0, ops := [],
              attempts := [], transported := [], notified := [] }).2.store,
        ops := (notifyLoop cfg tr FlaskApp.TELEGRAM_MESSAGE_HEADER
            FlaskApp.STORAGE_SEEN_KEY (newListings (st.sets FlaskApp.STORAGE_SEEN_KEY) ls)
            { store := st, sent := 0, calls := 0, ops := [],
              attempts := [], transported := [], notified := [] }).2.ops,
        attempts := (notifyLoop cfg tr FlaskApp.TELEGRAM_MESSAGE_HEADER
            FlaskApp.STORAGE_SEEN_KEY (newListings (st.sets FlaskApp.STORAGE_SEEN_KEY) ls)
            { store := st, sent := 0, calls := 0, ops := [],
              attempts := [], transported := [], notified := [] }).2.attempts,
        transported := (notifyLoop cfg tr FlaskApp.TELEGRAM_MESSAGE_HEADER
            FlaskApp.STORAGE_SEEN_KEY (newListings (st.sets FlaskApp.STORAGE_SEEN_KEY) ls)
            { store := st, sent := 0, calls := 0, ops := [],
              attempts := [], transported := [], notified := [] }).2.transported,
        notified := (notifyLoop cfg tr FlaskApp.TELEGRAM_MESSAGE_HEADER
            FlaskApp.STORAGE_SEEN_KEY (newListings (st.sets FlaskApp.STORAGE_SEEN_KEY) ls)
            { store := st, sent := 0, calls := 0, ops := [],
              attempts := [], transported := [], notified := [] }).2.notified } := by
  unfold FlaskApp.run_check Store.smembers
  rw [if_neg (by simp [hinit]), if_neg hdelta, if_neg Bool.false_ne_true]
  simp only [hres]

theorem bool_eq_true_of_ne_false {b : Bool} (h : ¬ b = false) : b = true := by
  cases b
  · exact absurd rfl h
  · rfl

theorem newListings_truthy (seen : Finset String) (ls : List Listing) :
    ∀ l ∈ newListings seen ls, truthy l.lot = true := by
  intro l hl
  have h2 := (List.mem_filter.mp hl).2
  simp only [isNew, Bool.and_eq_true] at h2
  exact h2.1

theorem flask_run_attempts_sub (cfg : TelegramConfig) (tr : Nat → TransportOutcome)
    (st : Store) (ls : List Listing) (d : Bool) :
    ∀ x ∈ (FlaskApp.run_check cfg tr st ls d).attempts,
      x ∈ newListings (st.sets FlaskApp.STORAGE_SEEN_KEY) ls := by
  intro x hx
  by_cases hinit : st.existsKey FlaskApp.STORAGE_INIT_KEY = false
  · rw [flask_run_check_bootstrap cfg tr st ls d hinit] at hx
    exact absurd hx (List.not_mem_nil x)
  · have hinit' := bool_eq_true_of_ne_false hinit
    by_cases hdelta : newListings (st.sets FlaskApp.STORAGE_SEEN_KEY) ls = []
    · rw [flask_run_check_no_new cfg tr st ls d hinit' hdelta] at hx
      exact absurd hx (List.not_mem_nil x)
    · cases d with
      | true =>
        rw [flask_run_check_dry cfg tr st ls hinit' hdelta] at hx
        exact absurd hx (List.not_mem_nil x)
      | false =>
        rcases hres : (notifyLoop cfg tr FlaskApp.TELEGRAM_MESSAGE_HEADER
            FlaskApp.STORAGE_SEEN_KEY (newListings (st.sets FlaskApp.STORAGE_SEEN_KEY) ls)
            { store := st, sent := 0, calls := 0, ops := [],
              attempts := [], transported := [], notified := [] }).1 with _ | msg
        · rw [flask_run_check_notify_ok cfg tr st ls hinit' hdelta hres] at hx
          rcases notifyLoop_attempts_origin cfg tr FlaskApp.TELEGRAM_MESSAGE_HEADER
              FlaskApp.STORAGE_SEEN_KEY _ _ x hx with h | h
          · exact absurd h (List.not_mem_nil x)
          · exact h
        · rw [flask_run_check_notify_err cfg tr st ls msg hinit' hdelta hres] at hx
          rcases notifyLoop_attempts_origin cfg tr FlaskApp.TELEGRAM_MESSAGE_HEADER
              FlaskApp.STORAGE_SEEN_KEY _ _ x hx with h | h
          · exact absurd h (List.not_mem_nil x)
          · exact h

theorem flask_run_sets_mono (cfg : TelegramConfig) (tr : Nat → TransportOutcome)
    (st : Store) (ls : List Listing) (d : Bool) (k : String) :
    st.sets k ⊆ (FlaskApp.run_check cfg tr st ls d).store.sets k := by
  by_cases hinit : st.existsKey FlaskApp.STORAGE_INIT_KEY = false
  · rw [flask_run_check_bootstrap cfg tr st ls d hinit]
    show st.sets k ⊆
      ((if bootstrapLots ls = ∅ then st
        else st.sadd FlaskApp.STORAGE_SEEN_KEY (bootstrapLots ls)).setScalar
        FlaskApp.STORAGE_INIT_KEY "1").sets k
    rw [Store.setScalar_sets]
    by_cases h : bootstrapLots ls = ∅
    · rw [if_pos h]
    · rw [if_neg h]
      exact Store.sets_subset_sadd st FlaskApp.STORAGE_SEEN_KEY (bootstrapLots ls) k
  · have hinit' := bool_eq_true_of_ne_false hinit
    by_cases hdelta : newListings (st.sets FlaskApp.STORAGE_SEEN_KEY) ls = []
    · rw [flask_run_check_no_new cfg tr st ls d hinit' hdelta]
    · cases d with
      | true => rw [flask_run_check_dry cfg tr st ls hinit' hdelta]
      | false =>
        rcases hres : (notifyLoop cfg tr FlaskApp.TELEGRAM_MESSAGE_HEADER
            FlaskApp.STORAGE_SEEN_KEY (newListings (st.sets FlaskApp.STORAGE_SEEN_KEY) ls)
            { store := st, sent := 0, calls := 0, ops := [],
              attempts := [], transported := [], notified := [] }).1 with _ | msg
        · rw [flask_run_check_notify_ok cfg tr st ls hinit' hdelta hres]
          exact notifyLoop_sets_mono cfg tr FlaskApp.TELEGRAM_MESSAGE_HEADER
            FlaskApp.STORAGE_SEEN_KEY (newListings (st.sets FlaskApp.STORAGE_SEEN_KEY) ls)
            { store := st, sent := 0, calls := 0, ops := [],
              attempts := [], transported := [], notified := [] } k
        · rw [flask_run_check_notify_err cfg tr st ls msg hinit' hdelta hres]
          exact notifyLoop_sets_mono cfg tr FlaskApp.TELEGRAM_MESSAGE_HEADER
            FlaskApp.STORAGE_SEEN_KEY (newListings (st.sets FlaskApp.STORAGE_SEEN_KEY) ls)
            { store := st, sent := 0, calls := 0, ops := [],
              attempts := [], transported := [], notified := [] } k

theorem flask_run_sets_origin (cfg : TelegramConfig) (tr : Nat → TransportOutcome)
    (st : Store) (ls : List Listing) (d : Bool) (k x : String) :
    x ∈ (FlaskApp.run_check cfg tr st ls d).store.sets k →
      x ∈ st.sets k ∨
      (k = FlaskApp.STORAGE_SEEN_KEY ∧ ∃ l ∈ ls, l.lot = some x ∧ x ≠ "") := by
  intro hx
  by_cases hinit : st.existsKey FlaskApp.STORAGE_INIT_KEY = false
  · rw [flask_run_check_bootstrap cfg tr st ls d hinit] at hx
    have hx' : x ∈ ((if bootstrapLots ls = ∅ then st
        else st.sadd FlaskApp.STORAGE_SEEN_KEY (bootstrapLots ls)).setScalar
        FlaskApp.STORAGE_INIT_KEY "1").sets k := hx
    rw [Store.setScalar_sets] at hx'
    by_cases h : bootstrapLots ls = ∅
    · rw [if_pos h] at hx'
      exact Or.inl hx'
    · rw [if_neg h, Store.sadd_sets] at hx'
      by_cases hk : k = FlaskApp.STORAGE_SEEN_KEY
      · rw [if_pos hk] at hx'
        rcases Finset.mem_union.mp hx' with h1 | h1
        · exact Or.inl h1
        · exact Or.inr ⟨hk, (mem_bootstrapLots ls x).mp h1⟩
      · rw [if_neg hk] at hx'
        exact Or.inl hx'
  · have hinit' := bool_eq_true_of_ne_false hinit
    by_cases hdelta : newListings (st.sets FlaskApp.STORAGE_SEEN_KEY) ls = []
    · rw [flask_run_check_no_new cfg tr st ls d hinit' hdelta] at hx
      exact Or.inl hx
    · cases d with
      | true =>
        rw [flask_run_check_dry cfg tr st ls hinit' hdelta] at hx
        exact Or.inl hx
      | false =>
        have key :
            ∀ st' , x ∈ st'.sets k →
            st' = (notifyLoop cfg tr FlaskApp.TELEGRAM_MESSAGE_HEADER
              FlaskApp.STORAGE_SEEN_KEY (newListings (st.sets FlaskApp.STORAGE_SEEN_KEY) ls)
              { store := st, sent := 0, calls := 0, ops := [],
                attempts := [], transported := [], notified := [] }).2.store →
            x ∈ st.sets k ∨
              (k = FlaskApp.STORAGE_SEEN_KEY ∧ ∃ l ∈ ls, l.lot = some x ∧ x ≠ "") := by
          intro st' hx' hst'
          subst hst'
          rcases notifyLoop_sets_origin cfg tr FlaskApp.TELEGRAM_MESSAGE_HEADER
              FlaskApp.STORAGE_SEEN_KEY _ _ k x hx' with h1 | ⟨hk, l, hl, hlot, hne⟩
          · exact Or.inl h1
          · exact Or.inr ⟨hk, l,
              (newListings_sublist (st.sets FlaskApp.STORAGE_SEEN_KEY) ls).subset hl,
              hlot, hne⟩
        rcases hres : (notifyLoop cfg tr FlaskApp.TELEGRAM_MESSAGE_HEADER
            FlaskApp.STORAGE_SEEN_KEY (newListings (st.sets FlaskApp.STORAGE_SEEN_KEY) ls)
            { store := st, sent := 0, calls := 0, ops := [],
              attempts := [], transported := [], notified := [] }).1 with _ | msg
        · rw [flask_run_check_notify_ok cfg tr st ls hinit' hdelta hres] at hx
          exact key _ hx rfl
        · rw [flask_run_check_notify_err cfg tr st ls msg hinit' hdelta hres] at hx
          exact key _ hx rfl

theorem flask_run_notified (cfg : TelegramConfig) (tr : Nat → TransportOutcome)
    (st : Store) (ls : List Listing) (d : Bool) :
    ((truthyLots ls).Nodup → (FlaskApp.run_check cfg tr st ls d).notified.Nodup) ∧
    (∀ x ∈ (FlaskApp.run_check cfg tr st ls d).notified,
      x ∉ st.sets FlaskApp.STORAGE_SEEN_KEY ∧
      x ∈ (FlaskApp.run_check cfg tr st ls d).store.sets FlaskApp.STORAGE_SEEN_KEY) := by
  by_cases hinit : st.existsKey FlaskApp.STORAGE_INIT_KEY = false
  · rw [flask_run_check_bootstrap cfg tr st ls d hinit]
    exact ⟨fun _ => List.nodup_nil, by simp⟩
  · have hinit' := bool_eq_true_of_ne_false hinit
    by_cases hdelta : newListings (st.sets FlaskApp.STORAGE_SEEN_KEY) ls = []
    · rw [flask_run_check_no_new cfg tr st ls d hinit' hdelta]
      exact ⟨fun _ => List.nodup_nil, by simp⟩
    · have loopFacts :
          ∀ (st2 : Store) (not2 : List String),
          not2 = (notifyLoop cfg tr FlaskApp.TELEGRAM_MESSAGE_HEADER
            FlaskApp.STORAGE_SEEN_KEY (newListings (st.sets FlaskApp.STORAGE_SEEN_KEY) ls)
            { store := st, sent := 0, calls := 0, ops := [],
              attempts := [], transported := [], notified := [] }).2.notified →
          st2 = (notifyLoop cfg tr FlaskApp.TELEGRAM_MESSAGE_HEADER
            FlaskApp.STORAGE_SEEN_KEY (newListings (st.sets FlaskApp.STORAGE_SEEN_KEY) ls)
            { store := st, sent := 0, calls := 0, ops := [],
              attempts := [], transported := [], notified := [] }).2.store →
          ((truthyLots ls).Nodup → not2.Nodup) ∧
          (∀ x ∈ not2, x ∉ st.sets FlaskApp.STORAGE_SEEN_KEY ∧
            x ∈ st2.sets FlaskApp.STORAGE_SEEN_KEY) := by
        intro st2 not2 hnot hst2
        obtain ⟨N, hN, hsub, hmem⟩ := notifyLoop_notified cfg tr
          FlaskApp.TELEGRAM_MESSAGE_HEADER FlaskApp.STORAGE_SEEN_KEY
          (newListings (st.sets FlaskApp.STORAGE_SEEN_KEY) ls)
          { store := st, sent := 0, calls := 0, ops := [],
            attempts := [], transported := [], notified := [] }
        rw [List.nil_append] at hN
        subst hnot hst2
        rw [hN]
        constructor
        · intro hnd
          exact ((hsub.trans
            (newListings_lots_sublist (st.sets FlaskApp.STORAGE_SEEN_KEY) ls)).nodup hnd)
        · intro x hx
          obtain ⟨⟨l, hl, hlot, hne⟩, hin⟩ := hmem x hx
          refine ⟨?_, hin⟩
          have hmemdelta := (mem_newListings (st.sets FlaskApp.STORAGE_SEEN_KEY) ls l).mp hl
          obtain ⟨_, s, hlot2, _, hnotseen⟩ := hmemdelta
          rw [hlot2] at hlot
          rw [← Option.some.inj hlot]
          exact hnotseen
      cases d with
      | true =>
        rw [flask_run_check_dry cfg tr st ls hinit' hdelta]
        exact ⟨fun _ => List.nodup_nil, by simp⟩
      | false =>
        rcases hres : (notifyLoop cfg tr FlaskApp.TELEGRAM_MESSAGE_HEADER
            FlaskApp.STORAGE_SEEN_KEY (newListings (st.sets FlaskApp.STORAGE_SEEN_KEY) ls)
            { store := st, sent := 0, calls := 0, ops := [],
              attempts := [], transported := [], notified := [] }).1 with _ | msg
        · rw [flask_run_check_notify_ok cfg tr st ls hinit' hdelta hres]
          exact loopFacts _ _ rfl rfl
        · rw [flask_run_check_notify_err cfg tr st ls msg hinit' hdelta hres]
          exact loopFacts _ _ rfl rfl

theorem runSeq_cons_fst (sp : RunSpec) (rest : List RunSpec) (st : Store) :
    (runSeq (sp :: rest) st).1 =
      (runSeq rest (FlaskApp.run_check sp.cfg sp.transport st sp.listings sp.dry).store).1 := rfl

theorem runSeq_cons_snd (sp : RunSpec) (rest : List RunSpec) (st : Store) :
    (runSeq (sp :: rest) st).2 =
      (FlaskApp.run_check sp.cfg sp.transport st sp.listings sp.dry).notified ++
      (runSeq rest (FlaskApp.run_check sp.cfg sp.transport st sp.listings sp.dry).store).2 := rfl

theorem runSeq_facts (steps : List RunSpec) :
    ∀ st : Store,
      (∀ k, st.sets k ⊆ (runSeq steps st).1.sets k) ∧
      ((∀ sp ∈ steps, (truthyLots sp.listings).Nodup) →
        ((runSeq steps st).2.Nodup ∧
         ∀ x ∈ (runSeq steps st).2, x ∉ st.sets FlaskApp.STORAGE_SEEN_KEY ∧
           x ∈ (runSeq steps st).1.sets FlaskApp.STORAGE_SEEN_KEY)) := by
  induction steps with
  | nil =>
    intro st
    exact ⟨fun k => Finset.Subset.refl _, fun _ => ⟨List.nodup_nil, by simp [runSeq]⟩⟩
  | cons sp rest ih =>
    intro st
    obtain ⟨ihmono, ihnd⟩ :=
      ih (FlaskApp.run_check sp.cfg sp.transport st sp.listings sp.dry).store
    constructor
    · intro k
      rw [runSeq_cons_fst]
      exact Finset.Subset.trans (flask_run_sets_mono sp.cfg sp.transport st sp.listings sp.dry k)
        (ihmono k)
    · intro hnd
      have hndsp : (truthyLots sp.listings).Nodup := hnd sp (List.mem_cons_self _ _)
      have hndrest : ∀ sp' ∈ rest, (truthyLots sp'.listings).Nodup :=
        fun sp' h => hnd sp' (List.mem_cons_of_mem _ h)
      obtain ⟨restNd, restMem⟩ := ihnd hndrest
      obtain ⟨spNd, spMem⟩ := flask_run_notified sp.cfg sp.transport st sp.listings sp.dry
      rw [runSeq_cons_snd]
      constructor
      · rw [List.nodup_append]
        refine ⟨spNd hndsp, restNd, ?_⟩
        intro a ha hb
        exact ((restMem a hb).1) ((spMem a ha).2)
      · intro x hx
        rcases List.mem_append.mp hx with h1 | h1
        · exact ⟨(spMem x h1).1, ihmono FlaskApp.STORAGE_SEEN_KEY ((spMem x h1).2)⟩
        · refine ⟨?_, (restMem x h1).2⟩
          intro hmem
          exact (restMem x h1).1
            (flask_run_sets_mono sp.cfg sp.transport st sp.listings sp.dry
              FlaskApp.STORAGE_SEEN_KEY hmem)

/-! ### Claim theorems -/

/-- C9: `send_telegram_message` returns true only when the transport reply's
`ok` acknowledgement field is `true`; a transport exception is caught and
converted to `false` (the function is total, so a delivery failure can never
abort the run); and the result is true exactly when the credentials are set
and the reply acknowledges success. -/
theorem C9_deliver_ack (cfg : TelegramConfig) (o : TransportOutcome) (t : String) :
    ((send_telegram_message cfg o t).1 = true → o = TransportOutcome.reply (some true)) ∧
    (send_telegram_message cfg TransportOutcome.exn t).1 = false ∧
    ((send_telegram_message cfg o t).1 = true ↔
      (truthy cfg.bot_token = true ∧ truthy cfg.chat_id = true ∧
        o = TransportOutcome.reply (some true))) := by
  refine ⟨fun h => ((send_result_true_iff cfg o t).mp h).2.2, ?_, send_result_true_iff cfg o t⟩
  cases hb : truthy cfg.bot_token <;> cases hc : truthy cfg.chat_id <;>
    simp [send_telegram_message, hb, hc]

/-- C9 witness: a concrete successful acknowledgement, obtained through
`C9_deliver_ack`. -/
theorem C9_deliver_ack_witness :
    (send_telegram_message ⟨some "t", some "c"⟩ (TransportOutcome.reply (some true)) "x").1 =
      true ∧
    TransportOutcome.reply (some true) = TransportOutcome.reply (some true) :=
  ⟨by decide,
   (C9_deliver_ack ⟨some "t", some "c"⟩ (TransportOutcome.reply (some true)) "x").1 (by decide)⟩

/-- C6: the claim that `format_listing_message` is total fails on the code.
A listing whose `name` is a whitespace-only string is truthy, so the code
takes the `split()[0]` path, but `split()` of it is empty and `[0]` raises
`IndexError` (modelled as `none`); this holds for both profiles' headers. -/
theorem C6_format_crash_eval :
    format_listing_message FlaskApp.TELEGRAM_MESSAGE_HEADER { name := some " " } = none ∧
    format_listing_message Toyota.TELEGRAM_MESSAGE_HEADER { name := some " " } = none ∧
    truthy (some " ") = true ∧ pySplit " " = [] := by
  exact ⟨by decide, by decide, by decide, by decide⟩

/-- C3: whenever the init-flag does not exist, `run_check` bootstraps: it adds
exactly the set of non-empty lot ids of the snapshot to the seen-set in one
bulk `SADD` (skipped when that set is empty), then sets the init-flag, invokes
no delivery, and returns reason `bootstrap` with the total listing count; the
toyota profile behaves identically. -/
theorem C3_bootstrap_behavior (cfg : TelegramConfig) (tr : Nat → TransportOutcome)
    (st : Store) (ls : List Listing) (d : Bool)
    (hinit : st.existsKey FlaskApp.STORAGE_INIT_KEY = false) :
    (FlaskApp.run_check cfg tr st ls d).result =
      some { sent := 0, reason := "bootstrap", total := ls.length } ∧
    (FlaskApp.run_check cfg tr st ls d).attempts = [] ∧
    (FlaskApp.run_check cfg tr st ls d).transported = [] ∧
    (FlaskApp.run_check cfg tr st ls d).ops =
      (if bootstrapLots ls = ∅ then [] else
        [StoreOp.sadd FlaskApp.STORAGE_SEEN_KEY (bootstrapLots ls)]) ++
      [StoreOp.setScalar FlaskApp.STORAGE_INIT_KEY "1"] ∧
    (FlaskApp.run_check cfg tr st ls d).store.sets FlaskApp.STORAGE_SEEN_KEY =
      st.sets FlaskApp.STORAGE_SEEN_KEY ∪ bootstrapLots ls ∧
    (FlaskApp.run_check cfg tr st ls d).store.scalars FlaskApp.STORAGE_INIT_KEY = some "1" ∧
    (∀ x, x ∈ bootstrapLots ls ↔ ∃ l ∈ ls, l.lot = some x ∧ x ≠ "") ∧
    Toyota.run_check cfg tr st ls d = FlaskApp.run_check cfg tr st ls false := by
  rw [flask_run_check_bootstrap cfg tr st ls d hinit]
  refine ⟨rfl, rfl, rfl, rfl, ?_, ?_, mem_bootstrapLots ls,
    toyota_run_check_eq_flask cfg tr st ls d⟩
  · show ((if bootstrapLots ls = ∅ then st
      else st.sadd FlaskApp.STORAGE_SEEN_KEY (bootstrapLots ls)).setScalar
      FlaskApp.STORAGE_INIT_KEY "1").sets FlaskApp.STORAGE_SEEN_KEY = _
    rw [Store.setScalar_sets]
    by_cases h : bootstrapLots ls = ∅
    · rw [if_pos h, h, Finset.union_empty]
    · rw [if_neg h, Store.sadd_sets, if_pos rfl]
  · show ((if bootstrapLots ls = ∅ then st
      else st.sadd FlaskApp.STORAGE_SEEN_KEY (bootstrapLots ls)).setScalar
      FlaskApp.STORAGE_INIT_KEY "1").scalars FlaskApp.STORAGE_INIT_KEY = some "1"
    simp [Store.setScalar]

/-- C3 witness: a concrete bootstrap run over an uninitialised store, with a
listing lacking a lot id excluded from the bulk add. -/
theorem C3_bootstrap_behavior_witness :
    (Store.empty.existsKey FlaskApp.STORAGE_INIT_KEY = false) ∧
    (FlaskApp.run_check ⟨some "t", some "c"⟩ (fun _ => TransportOutcome.exn) Store.empty
      [{ lot := some "A" }, { lot := some "" }, { vin := some "v" }] false).result =
      some
        { sent := 0, reason := "bootstrap",
          total := ([{ lot := some "A" }, { lot := some "" },
            { vin := some "v" }] : List Listing).length } ∧
    (FlaskApp.run_check ⟨some "t", some "c"⟩ (fun _ => TransportOutcome.exn) Store.empty
      [{ lot := some "A" }, { lot := some "" }, { vin := some "v" }] false).store.sets
      FlaskApp.STORAGE_SEEN_KEY =
      Store.empty.sets FlaskApp.STORAGE_SEEN_KEY ∪
        bootstrapLots [{ lot := some "A" }, { lot := some "" }, { vin := some "v" }] :=
  ⟨by decide,
   (C3_bootstrap_behavior ⟨some "t", some "c"⟩ (fun _ => TransportOutcome.exn) Store.empty
     [{ lot := some "A" }, { lot := some "" }, { vin := some "v" }] false (by decide)).1,
   (C3_bootstrap_behavior ⟨some "t", some "c"⟩ (fun _ => TransportOutcome.exn) Store.empty
     [{ lot := some "A" }, { lot := some "" }, { vin := some "v" }] false
     (by decide)).2.2.2.2.1⟩

/-- C1 counterexample: dry-run purity fails as stated.  For toyota the flag is
ignored entirely: with an initialised store, a non-empty delta and dry-run
enabled, the run still mutates the seen-set and calls the transport.  For
flask_app, with the init-flag absent and dry-run enabled, the bootstrap path
still issues store mutations. -/
theorem C1_dry_run_counterexample :
    (Toyota.run_check ⟨some "t", some "c"⟩ (fun _ => TransportOutcome.reply (some true))
      (Store.empty.setScalar Toyota.STORAGE_INIT_KEY "1") [{ lot := some "C" }] true).store.sets
      Toyota.STORAGE_SEEN_KEY = {"C"} ∧
    (Store.empty.setScalar Toyota.STORAGE_INIT_KEY "1").sets Toyota.STORAGE_SEEN_KEY = ∅ ∧
    (Toyota.run_check ⟨some "t", some "c"⟩ (fun _ => TransportOutcome.reply (some true))
      (Store.empty.setScalar Toyota.STORAGE_INIT_KEY "1") [{ lot := some "C" }]
      true).transported = [{ lot := some "C" }] ∧
    (FlaskApp.run_check ⟨some "t", some "c"⟩ (fun _ => TransportOutcome.reply (some true))
      Store.empty [{ lot := some "C" }] true).ops =
      [StoreOp.sadd FlaskApp.STORAGE_SEEN_KEY {"C"},
       StoreOp.setScalar FlaskApp.STORAGE_INIT_KEY "1"] := by
  exact ⟨by decide, by decide, by decide, by decide⟩

/-- C1 amended: with the init-flag present, a flask_app dry run mutates
nothing, invokes no delivery, and reports reason `dry_run` with the delta
count when the delta is non-empty; toyota's `run_check` ignores the dry-run
flag altogether (it behaves as a normal incremental run), and in the
uninitialised state both profiles bootstrap regardless of the flag. -/
theorem C1_dry_run_amended (cfg : TelegramConfig) (tr : Nat → TransportOutcome)
    (st : Store) (ls : List Listing) :
    (st.existsKey FlaskApp.STORAGE_INIT_KEY = true →
      (FlaskApp.run_check cfg tr st ls true).store = st ∧
      (FlaskApp.run_check cfg tr st ls true).ops = [] ∧
      (FlaskApp.run_check cfg tr st ls true).attempts = [] ∧
      (FlaskApp.run_check cfg tr st ls true).transported = [] ∧
      (newListings (st.sets FlaskApp.STORAGE_SEEN_KEY) ls ≠ [] →
        (FlaskApp.run_check cfg tr st ls true).result = some
          { sent := 0, reason := "dry_run", total := ls.length,
            new_count := some (newListings (st.sets FlaskApp.STORAGE_SEEN_KEY) ls).length })) ∧
    (∀ d, Toyota.run_check cfg tr st ls d = Toyota.run_check cfg tr st ls false) := by
  constructor
  · intro hinit
    by_cases hdelta : newListings (st.sets FlaskApp.STORAGE_SEEN_KEY) ls = []
    · rw [flask_run_check_no_new cfg tr st ls true hinit hdelta]
      exact ⟨rfl, rfl, rfl, rfl, fun h => absurd hdelta h⟩
    · rw [flask_run_check_dry cfg tr st ls hinit hdelta]
      exact ⟨rfl, rfl, rfl, rfl, fun _ => rfl⟩
  · intro d
    rfl

/-- C1 witness: a concrete initialised store on which a flask_app dry run
leaves everything untouched and reports the delta count. -/
theorem C1_dry_run_amended_witness :
    ((Store.empty.setScalar FlaskApp.STORAGE_INIT_KEY "1").existsKey
      FlaskApp.STORAGE_INIT_KEY = true) ∧
    (FlaskApp.run_check ⟨some "t", some "c"⟩ (fun _ => TransportOutcome.reply (some true))
      (Store.empty.setScalar FlaskApp.STORAGE_INIT_KEY "1") [{ lot := some "C" }] true).ops =
      [] ∧
    newListings ((Store.empty.setScalar FlaskApp.STORAGE_INIT_KEY "1").sets
      FlaskApp.STORAGE_SEEN_KEY) [{ lot := some "C" }] ≠ [] ∧
    (FlaskApp.run_check ⟨some "t", some "c"⟩ (fun _ => TransportOutcome.reply (some true))
      (Store.empty.setScalar FlaskApp.STORAGE_INIT_KEY "1") [{ lot := some "C" }]
      true).result = some
      { sent := 0, reason := "dry_run",
        total := ([{ lot := some "C" }] : List Listing).length,
        new_count := some (newListings ((Store.empty.setScalar FlaskApp.STORAGE_INIT_KEY
          "1").sets FlaskApp.STORAGE_SEEN_KEY) [{ lot := some "C" }]).length } :=
  ⟨by decide,
   ((C1_dry_run_amended ⟨some "t", some "c"⟩ (fun _ => TransportOutcome.reply (some true))
     (Store.empty.setScalar FlaskApp.STORAGE_INIT_KEY "1") [{ lot := some "C" }]).1
     (by decide)).2.1,
   by decide,
   ((C1_dry_run_amended ⟨some "t", some "c"⟩ (fun _ => TransportOutcome.reply (some true))
     (Store.empty.setScalar FlaskApp.STORAGE_INIT_KEY "1") [{ lot := some "C" }]).1
     (by decide)).2.2.2.2 (by decide)⟩

/-- C5 counterexample: profile isolation fails as stated.  The two modules
define identical seen-set and init-flag key names, so a toyota bootstrap over
the shared store changes the seen state that flask_app reads: flask_app's
seen-set key goes from empty to containing the toyota-observed lot. -/
theorem C5_profile_isolation_counterexample :
    FlaskApp.STORAGE_SEEN_KEY = Toyota.STORAGE_SEEN_KEY ∧
    FlaskApp.STORAGE_INIT_KEY = Toyota.STORAGE_INIT_KEY ∧
    Store.empty.sets FlaskApp.STORAGE_SEEN_KEY = ∅ ∧
    (Toyota.run_check ⟨some "t", some "c"⟩ (fun _ => TransportOutcome.exn) Store.empty
      [{ lot := some "X" }] false).store.sets FlaskApp.STORAGE_SEEN_KEY = {"X"} := by
  exact ⟨rfl, rfl, rfl, by decide⟩

/-- C5 amended: both profiles share the identical key names
`bidcars:seen-lots` and `bidcars:seen-initialized`, so a run of one profile
reads and writes the other's seen state; in particular every lot a toyota
bootstrap records is afterwards excluded from flask_app's delta and is never
delivered by a flask_app run on the resulting store. -/
theorem C5_shared_keys_amended (cfg1 cfg2 : TelegramConfig)
    (tr1 tr2 : Nat → TransportOutcome) (st : Store) (ls1 ls2 : List Listing)
    (x : Listing) (s : String) (d2 : Bool)
    (hinit : st.existsKey Toyota.STORAGE_INIT_KEY = false)
    (hx : x ∈ ls1) (hlot : x.lot = some s) (hne : s ≠ "") :
    FlaskApp.STORAGE_SEEN_KEY = Toyota.STORAGE_SEEN_KEY ∧
    FlaskApp.STORAGE_INIT_KEY = Toyota.STORAGE_INIT_KEY ∧
    s ∈ (Toyota.run_check cfg1 tr1 st ls1 false).store.sets FlaskApp.STORAGE_SEEN_KEY ∧
    (∀ y : Listing, y.lot = some s →
      y ∉ newListings ((Toyota.run_check cfg1 tr1 st ls1 false).store.sets
        FlaskApp.STORAGE_SEEN_KEY) ls2 ∧
      y ∉ (FlaskApp.run_check cfg2 tr2 (Toyota.run_check cfg1 tr1 st ls1 false).store ls2
        d2).attempts) := by
  have hseen : s ∈ (Toyota.run_check cfg1 tr1 st ls1 false).store.sets
      FlaskApp.STORAGE_SEEN_KEY := by
    rw [toyota_run_check_eq_flask cfg1 tr1 st ls1 false,
        flask_run_check_bootstrap cfg1 tr1 st ls1 false hinit]
    show s ∈ ((if bootstrapLots ls1 = ∅ then st
      else st.sadd FlaskApp.STORAGE_SEEN_KEY (bootstrapLots ls1)).setScalar
      FlaskApp.STORAGE_INIT_KEY "1").sets FlaskApp.STORAGE_SEEN_KEY
    rw [Store.setScalar_sets]
    have hmem : s ∈ bootstrapLots ls1 := (mem_bootstrapLots ls1 s).mpr ⟨x, hx, hlot, hne⟩
    have hne2 : bootstrapLots ls1 ≠ ∅ := by
      intro h
      rw [h] at hmem
      exact absurd hmem (Finset.not_mem_empty s)
    rw [if_neg hne2, Store.sadd_sets, if_pos rfl]
    exact Finset.mem_union_right _ hmem
  refine ⟨rfl, rfl, hseen, ?_⟩
  intro y hy
  have hnotdelta : y ∉ newListings ((Toyota.run_check cfg1 tr1 st ls1 false).store.sets
      FlaskApp.STORAGE_SEEN_KEY) ls2 := by
    intro hmem
    obtain ⟨_, s', hlot', _, hnot⟩ := (mem_newListings _ ls2 y).mp hmem
    rw [hy] at hlot'
    rw [← Option.some.inj hlot'] at hnot
    exact hnot hseen
  refine ⟨hnotdelta, ?_⟩
  intro hatt
  exact hnotdelta (flask_run_attempts_sub cfg2 tr2 _ ls2 d2 y hatt)

/-- C5 witness: a concrete toyota bootstrap over the shared store sees lot X,
and a flask_app run on the resulting store no longer delivers a listing for
that lot. -/
theorem C5_shared_keys_amended_witness :
    (Store.empty.existsKey Toyota.STORAGE_INIT_KEY = false) ∧
    "X" ∈ (Toyota.run_check ⟨some "t", some "c"⟩ (fun _ => TransportOutcome.exn) Store.empty
      [{ lot := some "X" }] false).store.sets FlaskApp.STORAGE_SEEN_KEY ∧
    ({ lot := some "X" } : Listing) ∉
      (FlaskApp.run_check ⟨some "t", some "c"⟩ (fun _ => TransportOutcome.exn)
        (Toyota.run_check ⟨some "t", some "c"⟩ (fun _ => TransportOutcome.exn) Store.empty
          [{ lot := some "X" }] false).store [{ lot := some "X" }] false).attempts :=
  ⟨by decide,
   (C5_shared_keys_amended ⟨some "t", some "c"⟩ ⟨some "t", some "c"⟩
     (fun _ => TransportOutcome.exn) (fun _ => TransportOutcome.exn) Store.empty
     [{ lot := some "X" }] [{ lot := some "X" }] { lot := some "X" } "X" false
     (by decide) (by decide) rfl (by decide)).2.2.1,
   ((C5_shared_keys_amended ⟨some "t", some "c"⟩ ⟨some "t", some "c"⟩
     (fun _ => TransportOutcome.exn) (fun _ => TransportOutcome.exn) Store.empty
     [{ lot := some "X" }] [{ lot := some "X" }] { lot := some "X" } "X" false
     (by decide) (by decide) rfl (by decide)).2.2.2 { lot := some "X" } rfl).2⟩

/-- C4: in an incremental run, the delta is exactly the order-preserving
sublist of fetched listings with a non-empty, unseen lot id; a listing whose
lot is already seen is never in the delta and never delivered (either
profile, any dry flag); when the run completes, the delivered attempts are
exactly the delta; and an empty delta yields reason `no_new_listings` with
zero sent and no mutation. -/
theorem C4_delta_exact (cfg : TelegramConfig) (tr : Nat → TransportOutcome)
    (st : Store) (ls : List Listing)
    (hinit : st.existsKey FlaskApp.STORAGE_INIT_KEY = true) :
    List.Sublist (newListings (st.sets FlaskApp.STORAGE_SEEN_KEY) ls) ls ∧
    (∀ l, l ∈ newListings (st.sets FlaskApp.STORAGE_SEEN_KEY) ls ↔
      (l ∈ ls ∧ ∃ s, l.lot = some s ∧ s ≠ "" ∧ s ∉ st.sets FlaskApp.STORAGE_SEEN_KEY)) ∧
    (∀ (l : Listing) (s : String), l.lot = some s → s ∈ st.sets FlaskApp.STORAGE_SEEN_KEY →
      ∀ d, l ∉ (FlaskApp.run_check cfg tr st ls d).attempts ∧
        l ∉ (Toyota.run_check cfg tr st ls d).attempts) ∧
    ((∀ l ∈ newListings (st.sets FlaskApp.STORAGE_SEEN_KEY) ls,
        (format_listing_message FlaskApp.TELEGRAM_MESSAGE_HEADER l).isSome = true) →
      (FlaskApp.run_check cfg tr st ls false).attempts =
        newListings (st.sets FlaskApp.STORAGE_SEEN_KEY) ls) ∧
    (newListings (st.sets FlaskApp.STORAGE_SEEN_KEY) ls = [] →
      (FlaskApp.run_check cfg tr st ls false).result =
        some { sent := 0, reason := "no_new_listings", total := ls.length } ∧
      (Toyota.run_check cfg tr st ls false).result =
        some { sent := 0, reason := "no_new_listings", total := ls.length } ∧
      (FlaskApp.run_check cfg tr st ls false).store = st ∧
      (FlaskApp.run_check cfg tr st ls false).attempts = []) := by
  refine ⟨newListings_sublist _ _, fun l => mem_newListings _ _ l, ?_, ?_, ?_⟩
  · intro l s hlot hseen d
    have hnot : l ∉ newListings (st.sets FlaskApp.STORAGE_SEEN_KEY) ls := by
      intro hmem
      obtain ⟨_, s', hlot', _, hns⟩ := (mem_newListings _ _ l).mp hmem
      rw [hlot] at hlot'
      rw [Option.some.inj hlot'] at hseen
      exact hns hseen
    constructor
    · intro hatt
      exact hnot (flask_run_attempts_sub cfg tr st ls d l hatt)
    · intro hatt
      rw [toyota_run_check_eq_flask cfg tr st ls d] at hatt
      exact hnot (flask_run_attempts_sub cfg tr st ls false l hatt)
  · intro hfmt
    by_cases hdelta : newListings (st.sets FlaskApp.STORAGE_SEEN_KEY) ls = []
    · rw [flask_run_check_no_new cfg tr st ls false hinit hdelta, hdelta]
    · obtain ⟨hl1, hl2, _⟩ :=
        notifyLoop_run cfg tr FlaskApp.TELEGRAM_MESSAGE_HEADER FlaskApp.STORAGE_SEEN_KEY
          (newListings (st.sets FlaskApp.STORAGE_SEEN_KEY) ls)
          { store := st, sent := 0, calls := 0, ops := [],
            attempts := [], transported := [], notified := [] }
          (newListings_truthy _ _) hfmt
      rw [flask_run_check_notify_ok cfg tr st ls hinit hdelta hl1]
      rw [hl2]
      simp
  · intro hdelta
    rw [flask_run_check_no_new cfg tr st ls false hinit hdelta,
      toyota_run_check_eq_flask cfg tr st ls false,
      flask_run_check_no_new cfg tr st ls false hinit hdelta]
    exact ⟨rfl, rfl, rfl, rfl⟩

/-- C4 witness: the spec scenario, seen-set A,B and snapshot A,B,C,D, where
the delta is exactly C,D in order, and the already-seen listing A is never
attempted. -/
theorem C4_delta_exact_witness :
    (((Store.empty.sadd FlaskApp.STORAGE_SEEN_KEY {"A", "B"}).setScalar
      FlaskApp.STORAGE_INIT_KEY "1").existsKey FlaskApp.STORAGE_INIT_KEY = true) ∧
    newListings (((Store.empty.sadd FlaskApp.STORAGE_SEEN_KEY {"A", "B"}).setScalar
      FlaskApp.STORAGE_INIT_KEY "1").sets FlaskApp.STORAGE_SEEN_KEY)
      [{ lot := some "A" }, { lot := some "B" }, { lot := some "C" }, { lot := some "D" }] =
      [{ lot := some "C" }, { lot := some "D" }] ∧
    (FlaskApp.run_check ⟨some "t", some "c"⟩ (fun _ => TransportOutcome.reply (some true))
      ((Store.empty.sadd FlaskApp.STORAGE_SEEN_KEY {"A", "B"}).setScalar
        FlaskApp.STORAGE_INIT_KEY "1")
      [{ lot := some "A" }, { lot := some "B" }, { lot := some "C" }, { lot := some "D" }]
      false).attempts =
      newListings (((Store.empty.sadd FlaskApp.STORAGE_SEEN_KEY {"A", "B"}).setScalar
        FlaskApp.STORAGE_INIT_KEY "1").sets FlaskApp.STORAGE_SEEN_KEY)
        [{ lot := some "A" }, { lot := some "B" }, { lot := some "C" },
         { lot := some "D" }] ∧
    ({ lot := some "A" } : Listing) ∉
      (FlaskApp.run_check ⟨some "t", some "c"⟩ (fun _ => TransportOutcome.reply (some true))
        ((Store.empty.sadd FlaskApp.STORAGE_SEEN_KEY {"A", "B"}).setScalar
          FlaskApp.STORAGE_INIT_KEY "1")
        [{ lot := some "A" }, { lot := some "B" }, { lot := some "C" }, { lot := some "D" }]
        false).attempts :=
  ⟨by decide, by decide,
   (C4_delta_exact ⟨some "t", some "c"⟩ (fun _ => TransportOutcome.reply (some true))
     ((Store.empty.sadd FlaskApp.STORAGE_SEEN_KEY {"A", "B"}).setScalar
       FlaskApp.STORAGE_INIT_KEY "1")
     [{ lot := some "A" }, { lot := some "B" }, { lot := some "C" }, { lot := some "D" }]
     (by decide)).2.2.2.1 (by decide),
   ((C4_delta_exact ⟨some "t", some "c"⟩ (fun _ => TransportOutcome.reply (some true))
     ((Store.empty.sadd FlaskApp.STORAGE_SEEN_KEY {"A", "B"}).setScalar
       FlaskApp.STORAGE_INIT_KEY "1")
     [{ lot := some "A" }, { lot := some "B" }, { lot := some "C" }, { lot := some "D" }]
     (by decide)).2.2.1 { lot := some "A" } "A" rfl (by decide) false).1⟩

/-- C7: for every run (bootstrap or incremental, either profile, any dry
flag), every listing for which `send_telegram_message` is invoked has a
non-empty lot id, and every value newly added to any set key of the store is
the non-empty lot id of some fetched listing — so a listing with an empty or
missing lot id is never added to the seen-set and never triggers delivery. -/
theorem C7_empty_lot_never (cfg : TelegramConfig) (tr : Nat → TransportOutcome)
    (st : Store) (ls : List Listing) (d : Bool) :
    (∀ l ∈ (FlaskApp.run_check cfg tr st ls d).attempts, ∃ s, l.lot = some s ∧ s ≠ "") ∧
    (∀ l ∈ (Toyota.run_check cfg tr st ls d).attempts, ∃ s, l.lot = some s ∧ s ≠ "") ∧
    (∀ k x, x ∈ (FlaskApp.run_check cfg tr st ls d).store.sets k →
      x ∈ st.sets k ∨
      (k = FlaskApp.STORAGE_SEEN_KEY ∧ ∃ l ∈ ls, l.lot = some x ∧ x ≠ "")) ∧
    (∀ k x, x ∈ (Toyota.run_check cfg tr st ls d).store.sets k →
      x ∈ st.sets k ∨
      (k = Toyota.STORAGE_SEEN_KEY ∧ ∃ l ∈ ls, l.lot = some x ∧ x ≠ "")) := by
  refine ⟨?_, ?_, flask_run_sets_origin cfg tr st ls d, ?_⟩
  · intro l hl
    obtain ⟨_, s, h⟩ := (mem_newListings _ ls l).mp (flask_run_attempts_sub cfg tr st ls d l hl)
    exact ⟨s, h.1, h.2.1⟩
  · intro l hl
    rw [toyota_run_check_eq_flask cfg tr st ls d] at hl
    obtain ⟨_, s, h⟩ := (mem_newListings _ ls l).mp
      (flask_run_attempts_sub cfg tr st ls false l hl)
    exact ⟨s, h.1, h.2.1⟩
  · intro k x hx
    rw [toyota_run_check_eq_flask cfg tr st ls d] at hx
    exact flask_run_sets_origin cfg tr st ls false k x hx

/-- C7 witness: on a concrete incremental run, the single attempted listing
has a non-empty lot, and the value it adds to the seen-set comes from the
snapshot. -/
theorem C7_empty_lot_never_witness :
    ({ lot := some "C" } : Listing) ∈
      (FlaskApp.run_check ⟨some "t", some "c"⟩ (fun _ => TransportOutcome.reply (some true))
        (Store.empty.setScalar FlaskApp.STORAGE_INIT_KEY "1")
        [{ lot := some "" }, { lot := some "C" }] false).attempts ∧
    (∃ s, ({ lot := some "C" } : Listing).lot = some s ∧ s ≠ "") ∧
    "C" ∈ (FlaskApp.run_check ⟨some "t", some "c"⟩ (fun _ => TransportOutcome.reply (some true))
        (Store.empty.setScalar FlaskApp.STORAGE_INIT_KEY "1")
        [{ lot := some "" }, { lot := some "C" }] false).store.sets
        FlaskApp.STORAGE_SEEN_KEY ∧
    ("C" ∈ (Store.empty.setScalar FlaskApp.STORAGE_INIT_KEY "1").sets
        FlaskApp.STORAGE_SEEN_KEY ∨
      (FlaskApp.STORAGE_SEEN_KEY = FlaskApp.STORAGE_SEEN_KEY ∧
        ∃ l ∈ ([{ lot := some "" }, { lot := some "C" }] : List Listing),
          l.lot = some "C" ∧ "C" ≠ "")) :=
  ⟨by decide,
   (C7_empty_lot_never ⟨some "t", some "c"⟩ (fun _ => TransportOutcome.reply (some true))
     (Store.empty.setScalar FlaskApp.STORAGE_INIT_KEY "1")
     [{ lot := some "" }, { lot := some "C" }] false).1 { lot := some "C" } (by decide),
   by decide,
   (C7_empty_lot_never ⟨some "t", some "c"⟩ (fun _ => TransportOutcome.reply (some true))
     (Store.empty.setScalar FlaskApp.STORAGE_INIT_KEY "1")
     [{ lot := some "" }, { lot := some "C" }] false).2.2.1
     FlaskApp.STORAGE_SEEN_KEY "C" (by decide)⟩

/-- C10: with the bot token or chat id unset/empty, `send_telegram_message`
returns false without attempting any transport call; consequently an
incremental run attempts every delta item, makes no transport call, reports
sent = 0 (reason `new_listings` when the delta is non-empty), and leaves the
store unchanged, so every delta lot stays eligible on later runs; toyota
behaves identically. -/
theorem C10_missing_credentials (cfg : TelegramConfig) (tr : Nat → TransportOutcome)
    (st : Store) (ls : List Listing)
    (hcred : truthy cfg.bot_token = false ∨ truthy cfg.chat_id = false)
    (hinit : st.existsKey FlaskApp.STORAGE_INIT_KEY = true)
    (hfmt : ∀ l ∈ newListings (st.sets FlaskApp.STORAGE_SEEN_KEY) ls,
      (format_listing_message FlaskApp.TELEGRAM_MESSAGE_HEADER l).isSome = true) :
    (∀ (o : TransportOutcome) (t : String), send_telegram_message cfg o t = (false, false)) ∧
    (FlaskApp.run_check cfg tr st ls false).attempts =
      newListings (st.sets FlaskApp.STORAGE_SEEN_KEY) ls ∧
    (FlaskApp.run_check cfg tr st ls false).transported = [] ∧
    (∀ k, (FlaskApp.run_check cfg tr st ls false).store.sets k = st.sets k) ∧
    (FlaskApp.run_check cfg tr st ls false).store.scalars = st.scalars ∧
    (newListings (st.sets FlaskApp.STORAGE_SEEN_KEY) ls ≠ [] →
      (FlaskApp.run_check cfg tr st ls false).result = some
        { sent := 0, reason := "new_listings", total := ls.length,
          new_count := some (newListings (st.sets FlaskApp.STORAGE_SEEN_KEY) ls).length }) ∧
    (∀ ls2, newListings ((FlaskApp.run_check cfg tr st ls false).store.sets
        FlaskApp.STORAGE_SEEN_KEY) ls2 =
      newListings (st.sets FlaskApp.STORAGE_SEEN_KEY) ls2) ∧
    Toyota.run_check cfg tr st ls false = FlaskApp.run_check cfg tr st ls false := by
  have hsendfc : ∀ (o : TransportOutcome) (t : String),
      send_telegram_message cfg o t = (false, false) :=
    fun o t => send_bad_creds cfg o t hcred
  have htoy := toyota_run_check_eq_flask cfg tr st ls false
  by_cases hdelta : newListings (st.sets FlaskApp.STORAGE_SEEN_KEY) ls = []
  · rw [flask_run_check_no_new cfg tr st ls false hinit hdelta]
    exact ⟨hsendfc, by rw [hdelta], rfl, fun k => rfl, rfl, fun h => absurd hdelta h,
      fun ls2 => rfl,
      htoy.trans (flask_run_check_no_new cfg tr st ls false hinit hdelta)⟩
  · have hcc : (truthy cfg.bot_token && truthy cfg.chat_id) = false := by
      rcases hcred with h | h <;> simp [h]
    obtain ⟨hl1, hl2, hl3, hl4, hl5, hl6, hl7, hl8, hl9⟩ :=
      notifyLoop_run cfg tr FlaskApp.TELEGRAM_MESSAGE_HEADER FlaskApp.STORAGE_SEEN_KEY
        (newListings (st.sets FlaskApp.STORAGE_SEEN_KEY) ls)
        { store := st, sent := 0, calls := 0, ops := [],
          attempts := [], transported := [], notified := [] }
        (newListings_truthy _ _) hfmt
    have hnil := succItems_bad_creds cfg tr FlaskApp.TELEGRAM_MESSAGE_HEADER hcred
    have hsetsall : ∀ k,
        (notifyLoop cfg tr FlaskApp.TELEGRAM_MESSAGE_HEADER FlaskApp.STORAGE_SEEN_KEY
          (newListings (st.sets FlaskApp.STORAGE_SEEN_KEY) ls)
          { store := st, sent := 0, calls := 0, ops := [],
            attempts := [], transported := [], notified := [] }).2.store.sets k =
        st.sets k := by
      intro k
      rw [hl7 k, hnil]
      by_cases hk : k = FlaskApp.STORAGE_SEEN_KEY <;> simp [hk]
    have hsent0 :
        (notifyLoop cfg tr FlaskApp.TELEGRAM_MESSAGE_HEADER FlaskApp.STORAGE_SEEN_KEY
          (newListings (st.sets FlaskApp.STORAGE_SEEN_KEY) ls)
          { store := st, sent := 0, calls := 0, ops := [],
            attempts := [], transported := [], notified := [] }).2.sent = 0 := by
      rw [hl4, hnil]
      rfl
    rw [flask_run_check_notify_ok cfg tr st ls hinit hdelta hl1]
    refine ⟨hsendfc, ?_, ?_, hsetsall, ?_, ?_, ?_,
      htoy.trans (flask_run_check_notify_ok cfg tr st ls hinit hdelta hl1)⟩
    · rw [hl2]
      simp
    · rw [hl3, hcc]
      simp
    · rw [hl8]
    · intro _
      rw [hsent0]
    · intro ls2
      rw [hsetsall FlaskApp.STORAGE_SEEN_KEY]

/-- C10 witness: a concrete incremental run with an unset bot token attempts
the single delta item, makes no transport call, reports sent = 0, and leaves
the seen-set unchanged. -/
theorem C10_missing_credentials_witness :
    (truthy (none : Option String) = false ∨ truthy (some "c") = false) ∧
    (FlaskApp.run_check ⟨none, some "c"⟩ (fun _ => TransportOutcome.reply (some true))
      (Store.empty.setScalar FlaskApp.STORAGE_INIT_KEY "1") [{ lot := some "C" }]
      false).attempts =
      newListings ((Store.empty.setScalar FlaskApp.STORAGE_INIT_KEY "1").sets
        FlaskApp.STORAGE_SEEN_KEY) [{ lot := some "C" }] ∧
    (FlaskApp.run_check ⟨none, some "c"⟩ (fun _ => TransportOutcome.reply (some true))
      (Store.empty.setScalar FlaskApp.STORAGE_INIT_KEY "1") [{ lot := some "C" }]
      false).transported = [] ∧
    (FlaskApp.run_check ⟨none, some "c"⟩ (fun _ => TransportOutcome.reply (some true))
      (Store.empty.setScalar FlaskApp.STORAGE_INIT_KEY "1") [{ lot := some "C" }]
      false).store.sets FlaskApp.STORAGE_SEEN_KEY =
      (Store.empty.setScalar FlaskApp.STORAGE_INIT_KEY "1").sets
        FlaskApp.STORAGE_SEEN_KEY :=
  ⟨Or.inl (by decide),
   (C10_missing_credentials ⟨none, some "c"⟩ (fun _ => TransportOutcome.reply (some true))
     (Store.empty.setScalar FlaskApp.STORAGE_INIT_KEY "1") [{ lot := some "C" }]
     (Or.inl (by decide)) (by decide) (by decide)).2.1,
   (C10_missing_credentials ⟨none, some "c"⟩ (fun _ => TransportOutcome.reply (some true))
     (Store.empty.setScalar FlaskApp.STORAGE_INIT_KEY "1") [{ lot := some "C" }]
     (Or.inl (by decide)) (by decide) (by decide)).2.2.1,
   (C10_missing_credentials ⟨none, some "c"⟩ (fun _ => TransportOutcome.reply (some true))
     (Store.empty.setScalar FlaskApp.STORAGE_INIT_KEY "1") [{ lot := some "C" }]
     (Or.inl (by decide)) (by decide) (by decide)).2.2.2.1 FlaskApp.STORAGE_SEEN_KEY⟩

/-- C8: across any sequence of flask_app runs threaded through the store the
seen-set (indeed every set key) is monotonically non-decreasing — the core
has no removal operation — and, provided each snapshot's non-empty lot ids
are pairwise distinct (lot is the unique identifier) and the store is not
externally reset, no lot id is successfully notified twice, within a run or
across runs. -/
theorem C8_monotone_no_double_notify (steps : List RunSpec) (st : Store) :
    (∀ k, st.sets k ⊆ (runSeq steps st).1.sets k) ∧
    ((∀ sp ∈ steps, (truthyLots sp.listings).Nodup) → (runSeq steps st).2.Nodup) :=
  ⟨(runSeq_facts steps st).1, fun h => ((runSeq_facts steps st).2 h).1⟩

/-- C8 witness: a concrete two-run sequence — a bootstrap over A followed by
an incremental run that notifies C — keeps A in the seen-set and notifies no
lot twice. -/
theorem C8_monotone_no_double_notify_witness :
    (∀ sp ∈ [RunSpec.mk ⟨some "t", some "c"⟩ (fun _ => TransportOutcome.reply (some true))
        [{ lot := some "A" }] false,
      RunSpec.mk ⟨some "t", some "c"⟩ (fun _ => TransportOutcome.reply (some true))
        [{ lot := some "A" }, { lot := some "C" }] false],
      (truthyLots sp.listings).Nodup) ∧
    "A" ∈ Store.empty.sets "k" ∪ {"A"} ∧
    (runSeq [RunSpec.mk ⟨some "t", some "c"⟩ (fun _ => TransportOutcome.reply (some true))
        [{ lot := some "A" }] false,
      RunSpec.mk ⟨some "t", some "c"⟩ (fun _ => TransportOutcome.reply (some true))
        [{ lot := some "A" }, { lot := some "C" }] false] Store.empty).2.Nodup :=
  ⟨by decide, by decide,
   (C8_monotone_no_double_notify
     [RunSpec.mk ⟨some "t", some "c"⟩ (fun _ => TransportOutcome.reply (some true))
       [{ lot := some "A" }] false,
      RunSpec.mk ⟨some "t", some "c"⟩ (fun _ => TransportOutcome.reply (some true))
       [{ lot := some "A" }, { lot := some "C" }] false] Store.empty).2 (by decide)⟩

/-- C2: in an incremental run whose delta splits as `pre ++ x :: suf` and
whose delivery for `x` (the `pre.length`-th send) fails, the lot of `x` is
not added to the seen-set, `x` is not counted in `sent` (which equals the
number of successful deliveries), the loop still attempts every delta item
rather than aborting, and any later snapshot still containing that lot has it
in its delta again; toyota behaves identically. -/
theorem C2_failed_delivery_retention (cfg : TelegramConfig) (tr : Nat → TransportOutcome)
    (st : Store) (ls : List Listing) (pre suf : List Listing) (x : Listing)
    (hinit : st.existsKey FlaskApp.STORAGE_INIT_KEY = true)
    (hsplit : newListings (st.sets FlaskApp.STORAGE_SEEN_KEY) ls = pre ++ x :: suf)
    (hnodup : ((newListings (st.sets FlaskApp.STORAGE_SEEN_KEY) ls).map lotStr).Nodup)
    (hfmt : ∀ l ∈ newListings (st.sets FlaskApp.STORAGE_SEEN_KEY) ls,
      (format_listing_message FlaskApp.TELEGRAM_MESSAGE_HEADER l).isSome = true)
    (hfail : deliveryOk cfg tr FlaskApp.TELEGRAM_MESSAGE_HEADER pre.length x = false) :
    lotStr x ∉ (FlaskApp.run_check cfg tr st ls false).store.sets
      FlaskApp.STORAGE_SEEN_KEY ∧
    (FlaskApp.run_check cfg tr st ls false).attempts =
      newListings (st.sets FlaskApp.STORAGE_SEEN_KEY) ls ∧
    (FlaskApp.run_check cfg tr st ls false).result = some
      { sent := (succItems cfg tr FlaskApp.TELEGRAM_MESSAGE_HEADER 0
          (newListings (st.sets FlaskApp.STORAGE_SEEN_KEY) ls)).length,
        reason := "new_listings", total := ls.length,
        new_count := some (newListings (st.sets FlaskApp.STORAGE_SEEN_KEY) ls).length } ∧
    x ∉ succItems cfg tr FlaskApp.TELEGRAM_MESSAGE_HEADER 0
      (newListings (st.sets FlaskApp.STORAGE_SEEN_KEY) ls) ∧
    (∀ (ls2 : List Listing) (y : Listing), y ∈ ls2 → y.lot = x.lot →
      y ∈ newListings ((FlaskApp.run_check cfg tr st ls false).store.sets
        FlaskApp.STORAGE_SEEN_KEY) ls2) ∧
    Toyota.run_check cfg tr st ls false = FlaskApp.run_check cfg tr st ls false := by
  have hdelta : newListings (st.sets FlaskApp.STORAGE_SEEN_KEY) ls ≠ [] := by
    rw [hsplit]
    simp
  have hxdelta : x ∈ newListings (st.sets FlaskApp.STORAGE_SEEN_KEY) ls := by
    rw [hsplit]
    exact List.mem_append_right _ (List.mem_cons_self _ _)
  obtain ⟨_, s, hxlot, hsne, hsnotseen⟩ :=
    (mem_newListings (st.sets FlaskApp.STORAGE_SEEN_KEY) ls x).mp hxdelta
  have hxs : lotStr x = s := by
    rw [lotStr, hxlot]
    rfl
  -- the successful items avoid x and its lot
  have hS : succItems cfg tr FlaskApp.TELEGRAM_MESSAGE_HEADER 0
      (newListings (st.sets FlaskApp.STORAGE_SEEN_KEY) ls) =
      succItems cfg tr FlaskApp.TELEGRAM_MESSAGE_HEADER 0 pre ++
      succItems cfg tr FlaskApp.TELEGRAM_MESSAGE_HEADER (pre.length + 1) suf := by
    rw [hsplit, succItems_append cfg tr FlaskApp.TELEGRAM_MESSAGE_HEADER pre (x :: suf) 0,
      Nat.zero_add, succItems, if_neg (by rw [hfail]; exact Bool.false_ne_true)]
  have hnodup' : ((pre ++ x :: suf).map lotStr).Nodup := by
    rw [← hsplit]
    exact hnodup
  rw [List.map_append, List.nodup_append] at hnodup'
  obtain ⟨_, hnd2, hdisj⟩ := hnodup'
  have hxc : lotStr x ∈ (x :: suf).map lotStr := by simp
  have hxpre : lotStr x ∉ pre.map lotStr := fun h => hdisj h hxc
  have hxsuf : lotStr x ∉ suf.map lotStr := by
    rw [List.map_cons, List.nodup_cons] at hnd2
    exact hnd2.1
  have hnotmap : lotStr x ∉ (succItems cfg tr FlaskApp.TELEGRAM_MESSAGE_HEADER 0
      (newListings (st.sets FlaskApp.STORAGE_SEEN_KEY) ls)).map lotStr := by
    rw [hS, List.map_append]
    intro hmem
    rcases List.mem_append.mp hmem with h | h
    · obtain ⟨y, hy, hyx⟩ := List.mem_map.mp h
      exact hxpre (List.mem_map.mpr
        ⟨y, (succItems_sublist cfg tr FlaskApp.TELEGRAM_MESSAGE_HEADER 0 pre).subset hy, hyx⟩)
    · obtain ⟨y, hy, hyx⟩ := List.mem_map.mp h
      exact hxsuf (List.mem_map.mpr
        ⟨y, (succItems_sublist cfg tr FlaskApp.TELEGRAM_MESSAGE_HEADER
          (pre.length + 1) suf).subset hy, hyx⟩)
  have hnotsucc : x ∉ succItems cfg tr FlaskApp.TELEGRAM_MESSAGE_HEADER 0
      (newListings (st.sets FlaskApp.STORAGE_SEEN_KEY) ls) := by
    intro hmem
    exact hnotmap (List.mem_map.mpr ⟨x, hmem, rfl⟩)
  -- run the loop
  obtain ⟨hl1, hl2, hl3, hl4, hl5, hl6, hl7, hl8, hl9⟩ :=
    notifyLoop_run cfg tr FlaskApp.TELEGRAM_MESSAGE_HEADER FlaskApp.STORAGE_SEEN_KEY
      (newListings (st.sets FlaskApp.STORAGE_SEEN_KEY) ls)
      { store := st, sent := 0, calls := 0, ops := [],
        attempts := [], transported := [], notified := [] }
      (newListings_truthy _ _) hfmt
  have hsets :
      (notifyLoop cfg tr FlaskApp.TELEGRAM_MESSAGE_HEADER FlaskApp.STORAGE_SEEN_KEY
        (newListings (st.sets FlaskApp.STORAGE_SEEN_KEY) ls)
        { store := st, sent := 0, calls := 0, ops := [],
          attempts := [], transported := [], notified := [] }).2.store.sets
        FlaskApp.STORAGE_SEEN_KEY =
      st.sets FlaskApp.STORAGE_SEEN_KEY ∪
        ((succItems cfg tr FlaskApp.TELEGRAM_MESSAGE_HEADER 0
          (newListings (st.sets FlaskApp.STORAGE_SEEN_KEY) ls)).map lotStr).toFinset := by
    rw [hl7 FlaskApp.STORAGE_SEEN_KEY, if_pos rfl]
  have hnotfinal : lotStr x ∉
      (notifyLoop cfg tr FlaskApp.TELEGRAM_MESSAGE_HEADER FlaskApp.STORAGE_SEEN_KEY
        (newListings (st.sets FlaskApp.STORAGE_SEEN_KEY) ls)
        { store := st, sent := 0, calls := 0, ops := [],
          attempts := [], transported := [], notified := [] }).2.store.sets
        FlaskApp.STORAGE_SEEN_KEY := by
    rw [hsets]
    intro hmem
    rcases Finset.mem_union.mp hmem with h | h
    · rw [hxs] at h
      exact hsnotseen h
    · exact hnotmap (List.mem_toFinset.mp h)
  rw [flask_run_check_notify_ok cfg tr st ls hinit hdelta hl1]
  refine ⟨hnotfinal, ?_, ?_, hnotsucc, ?_,
    (toyota_run_check_eq_flask cfg tr st ls false).trans
      (flask_run_check_notify_ok cfg tr st ls hinit hdelta hl1)⟩
  · rw [hl2]
    simp
  · rw [hl4]
    simp
  · intro ls2 y hy2 hylot
    refine (mem_newListings _ ls2 y).mpr ⟨hy2, s, ?_, hsne, ?_⟩
    · rw [hylot]
      exact hxlot
    · rw [← hxs]
      exact hnotfinal

/-- C2 witness: seen-set A,B; snapshot A,B,C,D; delivery succeeds for C
(call 0) and fails for D (call 1).  Then sent = 1, the final seen-set lacks
D, and a next snapshot containing D has it in its delta again. -/
theorem C2_failed_delivery_retention_witness :
    newListings (((Store.empty.sadd FlaskApp.STORAGE_SEEN_KEY {"A", "B"}).setScalar
      FlaskApp.STORAGE_INIT_KEY "1").sets FlaskApp.STORAGE_SEEN_KEY)
      [{ lot := some "A" }, { lot := some "B" }, { lot := some "C" }, { lot := some "D" }] =
      [{ lot := some "C" }] ++ ({ lot := some "D" } : Listing) :: [] ∧
    deliveryOk ⟨some "t", some "c"⟩
      (fun k => if k = 0 then TransportOutcome.reply (some true) else TransportOutcome.exn)
      FlaskApp.TELEGRAM_MESSAGE_HEADER ([{ lot := some "C" }] : List Listing).length
      { lot := some "D" } = false ∧
    (FlaskApp.run_check ⟨some "t", some "c"⟩
      (fun k => if k = 0 then TransportOutcome.reply (some true) else TransportOutcome.exn)
      ((Store.empty.sadd FlaskApp.STORAGE_SEEN_KEY {"A", "B"}).setScalar
        FlaskApp.STORAGE_INIT_KEY "1")
      [{ lot := some "A" }, { lot := some "B" }, { lot := some "C" }, { lot := some "D" }]
      false).result =
      some { sent := 1, reason := "new_listings", total := 4, new_count := some 2 } ∧
    (FlaskApp.run_check ⟨some "t", some "c"⟩
      (fun k => if k = 0 then TransportOutcome.reply (some true) else TransportOutcome.exn)
      ((Store.empty.sadd FlaskApp.STORAGE_SEEN_KEY {"A", "B"}).setScalar
        FlaskApp.STORAGE_INIT_KEY "1")
      [{ lot := some "A" }, { lot := some "B" }, { lot := some "C" }, { lot := some "D" }]
      false).store.sets FlaskApp.STORAGE_SEEN_KEY = {"A", "B", "C"} ∧
    lotStr { lot := some "D" } ∉
      (FlaskApp.run_check ⟨some "t", some "c"⟩
        (fun k => if k = 0 then TransportOutcome.reply (some true) else TransportOutcome.exn)
        ((Store.empty.sadd FlaskApp.STORAGE_SEEN_KEY {"A", "B"}).setScalar
          FlaskApp.STORAGE_INIT_KEY "1")
        [{ lot := some "A" }, { lot := some "B" }, { lot := some "C" }, { lot := some "D" }]
        false).store.sets FlaskApp.STORAGE_SEEN_KEY ∧
    ({ lot := some "D" } : Listing) ∈
      newListings ((FlaskApp.run_check ⟨some "t", some "c"⟩
        (fun k => if k = 0 then TransportOutcome.reply (some true) else TransportOutcome.exn)
        ((Store.empty.sadd FlaskApp.STORAGE_SEEN_KEY {"A", "B"}).setScalar
          FlaskApp.STORAGE_INIT_KEY "1")
        [{ lot := some "A" }, { lot := some "B" }, { lot := some "C" }, { lot := some "D" }]
        false).store.sets FlaskApp.STORAGE_SEEN_KEY) [{ lot := some "D" }] :=
  ⟨by decide, by decide, by decide, by decide,
   (C2_failed_delivery_retention ⟨some "t", some "c"⟩
     (fun k => if k = 0 then TransportOutcome.reply (some true) else TransportOutcome.exn)
     ((Store.empty.sadd FlaskApp.STORAGE_SEEN_KEY {"A", "B"}).setScalar
       FlaskApp.STORAGE_INIT_KEY "1")
     [{ lot := some "A" }, { lot := some "B" }, { lot := some "C" }, { lot := some "D" }]
     [{ lot := some "C" }] [] { lot := some "D" }
     (by decide) (by decide) (by decide) (by decide) (by decide)).1,
   ((C2_failed_delivery_retention ⟨some "t", some "c"⟩
     (fun k => if k = 0 then TransportOutcome.reply (some true) else TransportOutcome.exn)
     ((Store.empty.sadd FlaskApp.STORAGE_SEEN_KEY {"A", "B"}).setScalar
       FlaskApp.STORAGE_INIT_KEY "1")
     [{ lot := some "A" }, { lot := some "B" }, { lot := some "C" }, { lot := some "D" }]
     [{ lot := some "C" }] [] { lot := some "D" }
     (by decide) (by decide) (by decide) (by decide) (by decide)).2.2.2.2.1
     [{ lot := some "D" }] { lot := some "D" } (by decide) rfl)⟩
